import Mathlib

/-
Shallow embedding of the stem-profile model in `src/stems.py` (class
`StemProfileModel`) together with the coefficient tables of
`src/data/db.py`, and a verification of the specification's claims
against it.

Modelling conventions.

* Python floats are modelled as real numbers; float rounding error is out
  of scope.
* Python `x ** y` on floats is real-valued unless the base is negative and
  the exponent is not integer-valued, in which case CPython produces a
  `complex` value.  A complex value propagates through arithmetic and makes
  the final `round(...)` raise `TypeError`, which the methods catch
  (`except TypeError: pass`), so the Python method returns `None`.  We track
  this with an explicit complex-ness condition per power occurring in each
  method, and the outcome `PyRes.noneV`.
* `x ** y` with `x = 0` and `y < 0`, and every division with zero
  denominator (real `0.0` or complex `0j`), raise `ZeroDivisionError`, which
  no method catches: the call crashes.  Outcome `PyRes.crash`.  A division
  whose denominator is a complex power with a negative base and fractional
  exponent does not raise (such a value has nonzero imaginary part), but a
  quotient like `W = (c + e/D**3)/(1 - G)` with complex `1 - G` is `0j`
  exactly when its real numerator is zero, and dividing by that `0j` does
  raise.  The crash conditions below take both facts into account.
* Python's `round` is round-half-to-even; `round(x, 2)` rounds at two
  decimal places.
* Accessing `self.seg_dict[...]` / `self.reg_dict[...]` / `self.wt_dict[...]`
  when the corresponding fetch failed (the attribute is `None`) raises
  `TypeError`, caught by the methods, outcome `PyRes.noneV`.  We model the
  parameter attributes as `Option` fields holding the state after
  `fetch_params`.
-/

open scoped Classical

noncomputable section

/-- A real number that is the value of an integer (Python `float.is_integer`). -/
def IsIntVal (y : ℝ) : Prop := ∃ n : ℤ, y = (n : ℝ)

/-- Python `x ** y` on floats yields a `complex`-typed value exactly when the
base is negative and the exponent is not integer-valued. -/
def powComplex (x y : ℝ) : Prop := x < 0 ∧ ¬ IsIntVal y

/-- Python `x ** y` raises `ZeroDivisionError` exactly when the base is zero
and the exponent is negative. -/
def powZeroDiv (x y : ℝ) : Prop := x = 0 ∧ y < 0

/-- The real value of Python `x ** y` in the cases where the result is
real-typed: `Real.rpow` for nonnegative base; for a negative base the
exponent is integer-valued in every real-typed case, and the value is the
integer power (`⌊y⌋ = y` there). -/
def realPow (x y : ℝ) : ℝ := if x < 0 then x ^ ⌊y⌋ else Real.rpow x y

/-- Python `round` to an integer: round half to even. -/
def pyRoundInt (x : ℝ) : ℤ :=
  if Int.fract x = 1/2 then (if Even ⌊x⌋ then ⌊x⌋ else ⌊x⌋ + 1) else round x

/-- Python `round(x, 2)`. -/
def pyround2 (x : ℝ) : ℝ := (pyRoundInt (x * 100) : ℝ) / 100

/-- Python `round(x, 0)`-style rounding to zero decimals (used only to state
the specification's claimed volume formula). -/
def pyround0 (x : ℝ) : ℝ := (pyRoundInt x : ℝ)

/-- Regression coefficients (`reg_dict` of `stems.py`). -/
structure RegP where
  reg4_a : ℝ
  reg4_b : ℝ
  reg17_a : ℝ
  reg17_b : ℝ

/-- Segmented-profile coefficients (`seg_dict` of `stems.py`). -/
structure SegP where
  butt_r : ℝ
  butt_c : ℝ
  butt_e : ℝ
  lstem_p : ℝ
  ustem_b : ℝ
  ustem_a : ℝ

/-- The model object of `stems.py`.  The three `Option` fields are the
parameter attributes as left by `fetch_params` (`none` = Python `None`
after a failed lookup). -/
structure StemProfileModel where
  region : String
  spp : String
  dbh : ℝ
  height : ℝ
  bark : ℤ
  reg_dict : Option RegP
  seg_dict : Option SegP
  wt_dict : Option ℝ

/-- `StemProfileModel.__init__`: stores the five descriptors verbatim and
performs no validation whatsoever (the source defaults are
region="deep south", spp="loblolly pine", dbh=16.0, height=90.0, bark=1;
parameter dictionaries are unset). -/
def initStemProfileModel (region spp : String) (dbh height : ℝ) (bark : ℤ) :
    StemProfileModel :=
  ⟨region, spp, dbh, height, bark, none, none, none⟩

/-- A row of the `regcoeff` table (`data/db.py`, four-coefficient schema
used by `stems.py`). -/
structure RegRow where
  region : String
  spp : String
  bark : ℤ
  reg4_a : ℝ
  reg4_b : ℝ
  reg17_a : ℝ
  reg17_b : ℝ

/-- A row of the `segcoeff` table (`data/db.py`). -/
structure SegRow where
  bark : ℤ
  spp : String
  butt_r : ℝ
  butt_c : ℝ
  butt_e : ℝ
  lstem_p : ℝ
  ustem_b : ℝ
  ustem_a : ℝ

/-- A row of the `wtcoeff` table. -/
structure WtRow where
  spp : String
  tons_per_cuft : ℝ

/-- The coefficient database queried through the SQLAlchemy session. -/
structure Database where
  regcoeff : List RegRow
  segcoeff : List SegRow
  wtcoeff : List WtRow

/-- `_fetch_reg_params`: a `.filter(...).first()` query; when no row matches,
`result.reg4_a` raises and the bare `except` leaves `reg_dict = None`. -/
def fetch_reg_params (db : Database) (m : StemProfileModel) : Option RegP :=
  (db.regcoeff.find? (fun row =>
      row.region == m.region && row.spp == m.spp && row.bark == m.bark)).map
    (fun row => ⟨row.reg4_a, row.reg4_b, row.reg17_a, row.reg17_b⟩)

/-- `_fetch_seg_params`: as above for the segmented-profile coefficients. -/
def fetch_seg_params (db : Database) (m : StemProfileModel) : Option SegP :=
  (db.segcoeff.find? (fun row => row.bark == m.bark && row.spp == m.spp)).map
    (fun row => ⟨row.butt_r, row.butt_c, row.butt_e, row.lstem_p,
                 row.ustem_b, row.ustem_a⟩)

/-- `_fetch_wt_params`: queries by species only; on a miss it falls back to
the documented average `0.022` tons per cubic foot, so it never fails. -/
def fetch_wt_params (db : Database) (m : StemProfileModel) : ℝ :=
  match db.wtcoeff.find? (fun row => row.spp == m.spp) with
  | some row => row.tons_per_cuft
  | none => 0.022

/-- The diagnostic printed by `_fetch_reg_params` on failure. -/
def regErrMsg : String :=
  "Error: Could not retrieve Regression Parameters for the model. Check that you initialized the model with valid parameters (e.g.; region, spp, and bark)"

/-- The diagnostic printed by `_fetch_seg_params` on failure. -/
def segErrMsg : String :=
  "Error: Could not retrieve Segmented-profile Parameters for the model. Check that you initialized the model with valid parameters (e.g.; spp and bark)"

/-- `fetch_params`: runs the three fetches, stores the results on the model,
and returns (modelled) the printed diagnostics.  The Python function itself
returns `None`; failures are reported only through `print` and the `None`
attribute values. -/
def fetch_params (db : Database) (m : StemProfileModel) :
    StemProfileModel × List String :=
  let rg := fetch_reg_params db m
  let sg := fetch_seg_params db m
  let wt := fetch_wt_params db m
  ({ m with reg_dict := rg, seg_dict := sg, wt_dict := some wt },
   (if rg.isNone then [regErrMsg] else []) ++
   (if sg.isNone then [segErrMsg] else []))

/-- `_dbh_insideBark`: `round(reg4_a + reg4_b * dbh, 2)`. -/
def dbh_insideBark (m : StemProfileModel) (rg : RegP) : ℝ :=
  pyround2 (rg.reg4_a + rg.reg4_b * m.dbh)

/-- `_dia_atGirard`: `round(dbh * (reg17_a + reg17_b * (17.3/height)**2), 2)`.
The division by `height` raises when `height = 0`; that crash condition is
accounted for by each caller. -/
def dia_atGirard (m : StemProfileModel) (rg : RegP) : ℝ :=
  pyround2 (m.dbh * (rg.reg17_a + rg.reg17_b * (17.3 / m.height) ^ 2))

/-- `D` in the three estimators: inside-bark DBH when `bark == 1`, else the
raw DBH. -/
def Dval (m : StemProfileModel) (rg : RegP) : ℝ :=
  if m.bark = 1 then dbh_insideBark m rg else m.dbh

/-- `G = (1 - 4.5/H)**r`. -/
def Gv (s : SegP) (H : ℝ) : ℝ := realPow (1 - 4.5 / H) s.butt_r

/-- `W = (c + e/D**3) / (1 - G)`. -/
def Wv (s : SegP) (D H : ℝ) : ℝ := (s.butt_c + s.butt_e / D ^ 3) / (1 - Gv s H)

/-- `X = (1 - 4.5/H)**p`. -/
def Xv (s : SegP) (H : ℝ) : ℝ := realPow (1 - 4.5 / H) s.lstem_p

/-- `Y = (1 - 17.3/H)**p`. -/
def Yv (s : SegP) (H : ℝ) : ℝ := realPow (1 - 17.3 / H) s.lstem_p

/-- `Z = (D**2 - F**2) / (X - Y)`. -/
def Zv (s : SegP) (D H F : ℝ) : ℝ := (D ^ 2 - F ^ 2) / (Xv s H - Yv s H)

/-- `T = D**2 - Z * X`. -/
def Tv (s : SegP) (D H F : ℝ) : ℝ := D ^ 2 - Zv s D H F * Xv s H

/-- Outcome of calling one of the estimator methods:
a returned float, a silently returned `None`, or an uncaught exception. -/
inductive PyRes where
  | val (x : ℝ)
  | noneV
  | crash

end

section

/-- `id_S = 1 if h < 4.5 else 0` in `estimate_stemDiameter`. -/
noncomputable def dia_id_S (h : ℝ) : ℝ := if h < 4.5 then 1 else 0

/-- `id_B = 1 if 4.5 < h < 17.3 else 0`. -/
noncomputable def dia_id_B (h : ℝ) : ℝ := if 4.5 < h ∧ h < 17.3 then 1 else 0

/-- `id_T = 1 if h > 17.3 else 0`. -/
noncomputable def dia_id_T (h : ℝ) : ℝ := if 17.3 < h then 1 else 0

/-- `id_M = 1 if h < (17.3 + a * (H - 17.3)) else 0`. -/
noncomputable def dia_id_M (s : SegP) (H h : ℝ) : ℝ :=
  if h < 17.3 + s.ustem_a * (H - 17.3) then 1 else 0

/-- Butt-section term `d1` of `estimate_stemDiameter`. -/
noncomputable def dia_d1 (s : SegP) (D H h : ℝ) : ℝ :=
  dia_id_S h * (D ^ 2 * (1 + (s.butt_c + s.butt_e / D ^ 3) *
    (realPow (1 - h / H) s.butt_r - realPow (1 - 4.5 / H) s.butt_r) /
    (1 - realPow (1 - 4.5 / H) s.butt_r)))

/-- Lower-stem term `d2` of `estimate_stemDiameter`. -/
noncomputable def dia_d2 (s : SegP) (D H F h : ℝ) : ℝ :=
  dia_id_B h * (D ^ 2 - (D ^ 2 - F ^ 2) *
    (realPow (1 - 4.5 / H) s.lstem_p - realPow (1 - h / H) s.lstem_p) /
    (realPow (1 - 4.5 / H) s.lstem_p - realPow (1 - 17.3 / H) s.lstem_p))

/-- Upper-stem term `d3` of `estimate_stemDiameter`. -/
noncomputable def dia_d3 (s : SegP) (H F h : ℝ) : ℝ :=
  dia_id_T h * (F ^ 2 * (s.ustem_b * ((h - 17.3) / (H - 17.3) - 1) ^ 2 +
    dia_id_M s H h * ((1 - s.ustem_b) / s.ustem_a ^ 2) *
      (s.ustem_a - (h - 17.3) / (H - 17.3)) ^ 2))

/-- The conditions under which evaluating the body of `estimate_stemDiameter`
raises an uncaught `ZeroDivisionError` (each divisor of the source, in
evaluation order).  The only divisors here that may be complex-valued are
`1 - (1 - 4.5/H)**r` and `(1 - 4.5/H)**p - (1 - 17.3/H)**p`; when complex
they are never zero (nonzero imaginary part, resp. distinct moduli of the
negative bases), so they raise exactly when real and zero. -/
def diaCrash (s : SegP) (D H h : ℝ) : Prop :=
  H = 0 ∨ D = 0
  ∨ powZeroDiv (1 - h / H) s.butt_r ∨ powZeroDiv (1 - 4.5 / H) s.butt_r
  ∨ (¬ powComplex (1 - 4.5 / H) s.butt_r ∧
      1 - realPow (1 - 4.5 / H) s.butt_r = 0)
  ∨ powZeroDiv (1 - 4.5 / H) s.lstem_p ∨ powZeroDiv (1 - h / H) s.lstem_p
  ∨ powZeroDiv (1 - 17.3 / H) s.lstem_p
  ∨ (¬ (powComplex (1 - 4.5 / H) s.lstem_p ∨ powComplex (1 - 17.3 / H) s.lstem_p) ∧
      realPow (1 - 4.5 / H) s.lstem_p - realPow (1 - 17.3 / H) s.lstem_p = 0)
  ∨ H = 17.3 ∨ s.ustem_a = 0

/-- The conditions under which the body of `estimate_stemDiameter` produces a
complex-typed intermediate value (so that the final `round` raises
`TypeError`, caught and turned into `None`). -/
def diaComplex (s : SegP) (H h : ℝ) : Prop :=
  powComplex (1 - h / H) s.butt_r ∨ powComplex (1 - 4.5 / H) s.butt_r
  ∨ powComplex (1 - 4.5 / H) s.lstem_p ∨ powComplex (1 - h / H) s.lstem_p
  ∨ powComplex (1 - 17.3 / H) s.lstem_p

/-- `estimate_stemDiameter(h)`: `round((d1 + d2 + d3)**0.5, 2)` guarded by the
`except TypeError` handler.  A missing `seg_dict`/`reg_dict` raises
`TypeError` at the first subscript, giving `None`; a zero divisor raises
an uncaught `ZeroDivisionError`; a complex intermediate value (including a
negative radicand at the final `**0.5`) makes `round` raise `TypeError`,
giving `None`. -/
noncomputable def estimate_stemDiameter (m : StemProfileModel) (h : ℝ) : PyRes :=
  match m.seg_dict, m.reg_dict with
  | some s, some rg =>
    let D := Dval m rg
    let H := m.height
    let F := dia_atGirard m rg
    if diaCrash s D H h then .crash
    else if diaComplex s H h ∨
        dia_d1 s D H h + dia_d2 s D H F h + dia_d3 s H F h < 0 then .noneV
    else .val (pyround2 (Real.sqrt
      (dia_d1 s D H h + dia_d2 s D H F h + dia_d3 s H F h)))
  | _, _ => .noneV

/-- `id_S = 1 if d**2 >= D**2 else 0` in `estimate_stemHeight`. -/
noncomputable def hgt_id_S (D d : ℝ) : ℝ := if d ^ 2 ≥ D ^ 2 then 1 else 0

/-- `id_B = 1 if D**2 > d**2 >= F**2 else 0`. -/
noncomputable def hgt_id_B (D F d : ℝ) : ℝ :=
  if D ^ 2 > d ^ 2 ∧ d ^ 2 ≥ F ^ 2 then 1 else 0

/-- `id_T = 1 if F**2 > d**2 else 0`. -/
noncomputable def hgt_id_T (F d : ℝ) : ℝ := if F ^ 2 > d ^ 2 then 1 else 0

/-- `id_M = 1 if d**2 > b*(a - 1)**2 * F**2 else 0`. -/
noncomputable def hgt_id_M (s : SegP) (F d : ℝ) : ℝ :=
  if d ^ 2 > s.ustem_b * (s.ustem_a - 1) ^ 2 * F ^ 2 then 1 else 0

/-- `Qa = b + id_M * (1 - b)/a**2`. -/
noncomputable def hgt_Qa (s : SegP) (F d : ℝ) : ℝ :=
  s.ustem_b + hgt_id_M s F d * (1 - s.ustem_b) / s.ustem_a ^ 2

/-- `Qb = -2 * b - id_M * 2 * (1 - b) / a`. -/
noncomputable def hgt_Qb (s : SegP) (F d : ℝ) : ℝ :=
  -2 * s.ustem_b - hgt_id_M s F d * 2 * (1 - s.ustem_b) / s.ustem_a

/-- `Qc = b + (1 - b) * id_M - d**2 / F**2`. -/
noncomputable def hgt_Qc (s : SegP) (F d : ℝ) : ℝ :=
  s.ustem_b + (1 - s.ustem_b) * hgt_id_M s F d - d ^ 2 / F ^ 2

/-- The quadratic discriminant `Qb**2 - 4*Qa*Qc`. -/
noncomputable def hgt_disc (s : SegP) (F d : ℝ) : ℝ :=
  hgt_Qb s F d ^ 2 - 4 * hgt_Qa s F d * hgt_Qc s F d

/-- `h1 = id_S * H * (1 - ((d**2/D**2 - 1) / W + G)**1 / r)`.  Note that
Python parses `x**1/r` as `(x**1)/r`. -/
noncomputable def hgt_h1 (s : SegP) (D H d : ℝ) : ℝ :=
  hgt_id_S D d * H * (1 - ((d ^ 2 / D ^ 2 - 1) / Wv s D H + Gv s H) ^ 1 / s.butt_r)

/-- `h2 = id_B * H * (1 - (X - (D**2 - d**2) / Z)**1 / p)` (same parse). -/
noncomputable def hgt_h2 (s : SegP) (D H F d : ℝ) : ℝ :=
  hgt_id_B D F d * H * (1 - (Xv s H - (D ^ 2 - d ^ 2) / Zv s D H F) ^ 1 / s.lstem_p)

/-- `h3 = id_T * (17.3 + (H - 17.3) * ((-Qb - (Qb**2 - 4*Qa*Qc)**0.5)/(2*Qa)))`. -/
noncomputable def hgt_h3 (s : SegP) (H F d : ℝ) : ℝ :=
  hgt_id_T F d * (17.3 + (H - 17.3) *
    ((-hgt_Qb s F d - Real.sqrt (hgt_disc s F d)) / (2 * hgt_Qa s F d)))

/-- Uncaught `ZeroDivisionError` conditions of `estimate_stemHeight`.
The divisions *by* `1 - G` and `X - Y` crash only when those denominators
are real zeros: when complex they are nonzero (a negative base with a
fractional exponent contributes a nonzero imaginary part, and in `X - Y`
the two negative-base moduli `4.5/H - 1` and `17.3/H - 1` are distinct).
The divisions *by* `W = (c + e/D**3)/(1 - G)` and
`Z = (D**2 - F**2)/(X - Y)` crash whenever the respective numerator is
zero, unconditionally: a zero real numerator over a nonzero complex
denominator yields the complex zero `0j`, and dividing by `0j` raises
`ZeroDivisionError` just as dividing by `0.0` does. -/
def hgtCrash (s : SegP) (D H F d : ℝ) : Prop :=
  H = 0 ∨ D = 0
  ∨ powZeroDiv (1 - 4.5 / H) s.butt_r
  ∨ (¬ powComplex (1 - 4.5 / H) s.butt_r ∧
      1 - realPow (1 - 4.5 / H) s.butt_r = 0)
  ∨ powZeroDiv (1 - 4.5 / H) s.lstem_p ∨ powZeroDiv (1 - 17.3 / H) s.lstem_p
  ∨ (¬ (powComplex (1 - 4.5 / H) s.lstem_p ∨ powComplex (1 - 17.3 / H) s.lstem_p) ∧
      Xv s H - Yv s H = 0)
  ∨ s.ustem_a = 0 ∨ F = 0
  ∨ s.butt_c + s.butt_e / D ^ 3 = 0
  ∨ s.butt_r = 0
  ∨ D ^ 2 - F ^ 2 = 0
  ∨ s.lstem_p = 0
  ∨ hgt_Qa s F d = 0

/-- Complex-value conditions of `estimate_stemHeight` (a negative
discriminant makes `(…)**0.5` complex). -/
def hgtComplex (s : SegP) (H F d : ℝ) : Prop :=
  powComplex (1 - 4.5 / H) s.butt_r ∨ powComplex (1 - 4.5 / H) s.lstem_p
  ∨ powComplex (1 - 17.3 / H) s.lstem_p ∨ hgt_disc s F d < 0

/-- `estimate_stemHeight(d)`: `round(h1 + h2 + h3, 2)` under the
`except TypeError` handler, with the same outcome conventions as
`estimate_stemDiameter`. -/
noncomputable def estimate_stemHeight (m : StemProfileModel) (d : ℝ) : PyRes :=
  match m.seg_dict, m.reg_dict with
  | some s, some rg =>
    let D := Dval m rg
    let H := m.height
    let F := dia_atGirard m rg
    if hgtCrash s D H F d then .crash
    else if hgtComplex s H F d then .noneV
    else .val (pyround2 (hgt_h1 s D H d + hgt_h2 s D H F d + hgt_h3 s H F d))
  | _, _ => .noneV

/-- `L1 = max(L, 0)`. -/
noncomputable def vol_L1 (L : ℝ) : ℝ := max L 0

/-- `U1 = min(U, 4.5)`. -/
noncomputable def vol_U1 (U : ℝ) : ℝ := min U 4.5

/-- `L2 = max(L, 4.5)`. -/
noncomputable def vol_L2 (L : ℝ) : ℝ := max L 4.5

/-- `U2 = min(U, 17.3)`. -/
noncomputable def vol_U2 (U : ℝ) : ℝ := min U 17.3

/-- `L3 = max(L, 17.3)`. -/
noncomputable def vol_L3 (L : ℝ) : ℝ := max L 17.3

/-- `U3 = min(U, H)`. -/
noncomputable def vol_U3 (H U : ℝ) : ℝ := min U H

/-- `i1 = 1 if L < 4.5 else 0`. -/
noncomputable def vol_i1 (L : ℝ) : ℝ := if L < 4.5 then 1 else 0

/-- `i2 = 1 if L < 17.3 else 0`. -/
noncomputable def vol_i2 (L : ℝ) : ℝ := if L < 17.3 then 1 else 0

/-- `i3 = 1 if U > 4.5 else 0`. -/
noncomputable def vol_i3 (U : ℝ) : ℝ := if 4.5 < U then 1 else 0

/-- `i4 = 1 if U > 17.3 else 0`. -/
noncomputable def vol_i4 (U : ℝ) : ℝ := if 17.3 < U then 1 else 0

/-- `i5 = 1 if (L3 - 17.3) < a*(H - 17.3) else 0`. -/
noncomputable def vol_i5 (s : SegP) (H L : ℝ) : ℝ :=
  if vol_L3 L - 17.3 < s.ustem_a * (H - 17.3) then 1 else 0

/-- `i6 = 1 if (U3 - 17.3) < a*(H - 17.3) else 0`. -/
noncomputable def vol_i6 (s : SegP) (H U : ℝ) : ℝ :=
  if vol_U3 H U - 17.3 < s.ustem_a * (H - 17.3) then 1 else 0

/-- Butt-section antiderivative term `v1` of `estimate_volume`. -/
noncomputable def vol_v1 (s : SegP) (D H L U : ℝ) : ℝ :=
  vol_i1 L * D ^ 2 * ((1 - Gv s H * Wv s D H) * (vol_U1 U - vol_L1 L)
    + Wv s D H * (realPow (1 - vol_L1 L / H) s.butt_r * (H - vol_L1 L)
      - realPow (1 - vol_U1 U / H) s.butt_r * (H - vol_U1 U)) / (s.butt_r + 1))

/-- Lower-stem antiderivative term `v2` of `estimate_volume`. -/
noncomputable def vol_v2 (s : SegP) (D H F L U : ℝ) : ℝ :=
  vol_i2 L * vol_i3 U * (Tv s D H F * (vol_U2 U - vol_L2 L)
    + Zv s D H F * (realPow (1 - vol_L2 L / H) s.lstem_p * (H - vol_L2 L)
      - realPow (1 - vol_U2 U / H) s.lstem_p * (H - vol_U2 U)) / (s.lstem_p + 1))

/-- Upper-stem antiderivative term `v3` of `estimate_volume`. -/
noncomputable def vol_v3 (s : SegP) (H F L U : ℝ) : ℝ :=
  vol_i4 U * F ^ 2 * (s.ustem_b * (vol_U3 H U - vol_L3 L)
    - s.ustem_b * ((vol_U3 H U - 17.3) ^ 2 - (vol_L3 L - 17.3) ^ 2) / (H - 17.3)
    + (s.ustem_b / 3) * ((vol_U3 H U - 17.3) ^ 3 - (vol_L3 L - 17.3) ^ 3) / (H - 17.3) ^ 2
    + (vol_i5 s H L * (1/3) * ((1 - s.ustem_b) / s.ustem_a ^ 2) *
         (s.ustem_a * (H - 17.3) - (vol_L3 L - 17.3)) ^ 3 / (H - 17.3) ^ 2
       - vol_i6 s H U * (1/3) * ((1 - s.ustem_b) / s.ustem_a ^ 2) *
         (s.ustem_a * (H - 17.3) - (vol_U3 H U - 17.3)) ^ 3 / (H - 17.3) ^ 2))

/-- Uncaught `ZeroDivisionError` conditions of `estimate_volume`. -/
def volCrash (s : SegP) (D H L U : ℝ) : Prop :=
  H = 0 ∨ D = 0
  ∨ powZeroDiv (1 - 4.5 / H) s.butt_r
  ∨ (¬ powComplex (1 - 4.5 / H) s.butt_r ∧
      1 - realPow (1 - 4.5 / H) s.butt_r = 0)
  ∨ powZeroDiv (1 - 4.5 / H) s.lstem_p ∨ powZeroDiv (1 - 17.3 / H) s.lstem_p
  ∨ (¬ (powComplex (1 - 4.5 / H) s.lstem_p ∨ powComplex (1 - 17.3 / H) s.lstem_p) ∧
      Xv s H - Yv s H = 0)
  ∨ powZeroDiv (1 - vol_L1 L / H) s.butt_r ∨ powZeroDiv (1 - vol_U1 U / H) s.butt_r
  ∨ s.butt_r + 1 = 0
  ∨ powZeroDiv (1 - vol_L2 L / H) s.lstem_p ∨ powZeroDiv (1 - vol_U2 U / H) s.lstem_p
  ∨ s.lstem_p + 1 = 0
  ∨ H = 17.3 ∨ s.ustem_a = 0

/-- Complex-value conditions of `estimate_volume`. -/
def volComplex (s : SegP) (H L U : ℝ) : Prop :=
  powComplex (1 - 4.5 / H) s.butt_r ∨ powComplex (1 - 4.5 / H) s.lstem_p
  ∨ powComplex (1 - 17.3 / H) s.lstem_p
  ∨ powComplex (1 - vol_L1 L / H) s.butt_r ∨ powComplex (1 - vol_U1 U / H) s.butt_r
  ∨ powComplex (1 - vol_L2 L / H) s.lstem_p ∨ powComplex (1 - vol_U2 U / H) s.lstem_p

/-- `estimate_volume(lower, upper)`: note the source returns
`round(V * tons_per_cuft, 2)` where `V = 0.005454154*(v1+v2+v3)` — the
weight, not the plain cubic-foot volume.  The `wt_dict` subscript is
executed only after all the arithmetic, so a zero divisor crashes even
when `wt_dict` is `None`. -/
noncomputable def estimate_volume (m : StemProfileModel) (lower upper : ℝ) : PyRes :=
  match m.seg_dict, m.reg_dict with
  | some s, some rg =>
    let D := Dval m rg
    let H := m.height
    let F := dia_atGirard m rg
    if volCrash s D H lower upper then .crash
    else
      match m.wt_dict with
      | some t =>
        if volComplex s H lower upper then .noneV
        else .val (pyround2 (0.005454154 *
          (vol_v1 s D H lower upper + vol_v2 s D H F lower upper +
           vol_v3 s H F lower upper) * t))
      | none => .noneV
  | _, _ => .noneV

/-- Modelled from the spec: the claimed volume operation
`round(0.005454154 * (v1+v2+v3), 0)` (the specification's
`estimateVolume`, stated for comparison with the source's
`estimate_volume`). -/
noncomputable def spec_estimateVolume (s : SegP) (D H F L U : ℝ) : ℝ :=
  pyround0 (0.005454154 *
    (vol_v1 s D H L U + vol_v2 s D H F L U + vol_v3 s H F L U))

end

/-! Basic facts about the numeric helpers. -/

theorem pyRoundInt_eq_of (n : ℤ) {x : ℝ} (h1 : (n : ℝ) - 1/2 < x)
    (h2 : x < (n : ℝ) + 1/2) : pyRoundInt x = n := by
  have hfr : Int.fract x ≠ 1/2 := by
    intro hfr
    have hx : x = (⌊x⌋ : ℝ) + 1/2 := by
      have := Int.fract_add_floor x
      rw [hfr] at this
      linarith
    have hlt : (n : ℝ) - 1 < (⌊x⌋ : ℝ) := by linarith
    have hlt2 : (⌊x⌋ : ℝ) < (n : ℝ) := by linarith
    have h1i : n - 1 < ⌊x⌋ := by exact_mod_cast hlt
    have h2i : ⌊x⌋ < n := by exact_mod_cast hlt2
    omega
  rw [pyRoundInt, if_neg hfr, round_eq]
  rw [Int.floor_eq_iff]
  constructor <;> push_cast <;> linarith

theorem pyround2_eq_of (n : ℤ) {x : ℝ} (h1 : (n : ℝ) - 1/2 < x * 100)
    (h2 : x * 100 < (n : ℝ) + 1/2) : pyround2 x = (n : ℝ) / 100 := by
  rw [pyround2, pyRoundInt_eq_of n h1 h2]

theorem pyRoundInt_le_add_half (x : ℝ) : (pyRoundInt x : ℝ) ≤ x + 1/2 := by
  rw [pyRoundInt]
  by_cases hx : Int.fract x = 1/2
  · have hxv : x = (⌊x⌋ : ℝ) + 1/2 := by
      have := Int.fract_add_floor x
      rw [hx] at this
      linarith
    rw [if_pos hx]
    by_cases hxe : Even ⌊x⌋ <;> simp only [hxe, if_true, if_false, if_pos, if_neg,
      not_true, not_false_iff] <;> push_cast <;> linarith
  · rw [if_neg hx, round_eq]
    exact Int.floor_le (x + 1/2)

theorem sub_half_le_pyRoundInt (x : ℝ) : x - 1/2 ≤ (pyRoundInt x : ℝ) := by
  rw [pyRoundInt]
  by_cases hx : Int.fract x = 1/2
  · have hxv : x = (⌊x⌋ : ℝ) + 1/2 := by
      have := Int.fract_add_floor x
      rw [hx] at this
      linarith
    rw [if_pos hx]
    by_cases hxe : Even ⌊x⌋ <;> simp only [hxe, if_true, if_false, if_pos, if_neg,
      not_true, not_false_iff] <;> push_cast <;> linarith
  · rw [if_neg hx, round_eq]
    have := Int.sub_one_lt_floor (x + 1/2)
    linarith

theorem pyRoundInt_le_pyRoundInt {x y : ℝ} (hxy : x ≤ y) :
    pyRoundInt x ≤ pyRoundInt y := by
  by_contra hcon
  push_neg at hcon
  have hint : pyRoundInt y + 1 ≤ pyRoundInt x := hcon
  have hcast : (pyRoundInt y : ℝ) + 1 ≤ (pyRoundInt x : ℝ) := by exact_mod_cast hint
  have h1 := pyRoundInt_le_add_half x
  have h2 := sub_half_le_pyRoundInt y
  have hyx : y ≤ x := by linarith
  have hxyeq : x = y := le_antisymm hxy hyx
  rw [hxyeq] at hcon
  omega

theorem pyround2_mono {x y : ℝ} (hxy : x ≤ y) : pyround2 x ≤ pyround2 y := by
  rw [pyround2, pyround2]
  have := pyRoundInt_le_pyRoundInt (mul_le_mul_of_nonneg_right hxy (by norm_num : (0:ℝ) ≤ 100))
  have hc : (pyRoundInt (x * 100) : ℝ) ≤ (pyRoundInt (y * 100) : ℝ) := by exact_mod_cast this
  linarith

theorem realPow_of_nonneg {x : ℝ} (hx : 0 ≤ x) (y : ℝ) :
    realPow x y = Real.rpow x y := by
  rw [realPow, if_neg (not_lt.2 hx)]

theorem realPow_natCast {x : ℝ} (hx : 0 ≤ x) (n : ℕ) :
    realPow x (n : ℝ) = x ^ n := by
  rw [realPow_of_nonneg hx]
  exact Real.rpow_natCast x n

theorem realPow_two {x : ℝ} (hx : 0 ≤ x) : realPow x 2 = x ^ (2 : ℕ) := by
  have h2 : (2 : ℝ) = ((2 : ℕ) : ℝ) := by norm_num
  rw [h2, realPow_natCast hx]

theorem not_powComplex_of_nonneg {x : ℝ} (hx : 0 ≤ x) (y : ℝ) :
    ¬ powComplex x y := by
  rintro ⟨hneg, -⟩
  exact absurd hneg (not_lt.2 hx)

theorem not_powZeroDiv_of_ne {x : ℝ} (hx : x ≠ 0) (y : ℝ) :
    ¬ powZeroDiv x y := by
  rintro ⟨hzero, -⟩
  exact hx hzero

theorem not_powZeroDiv_of_exp_nonneg (x : ℝ) {y : ℝ} (hy : 0 ≤ y) :
    ¬ powZeroDiv x y := by
  rintro ⟨-, hneg⟩
  exact absurd hneg (not_lt.2 hy)

theorem isIntVal_two : IsIntVal 2 := ⟨2, by norm_num⟩

theorem not_isIntVal_five_half : ¬ IsIntVal (5/2 : ℝ) := by
  rintro ⟨n, hn⟩
  have h2 : ((2 * n : ℤ) : ℝ) = ((5 : ℤ) : ℝ) := by push_cast; linarith
  have : (2 * n : ℤ) = 5 := by exact_mod_cast h2
  omega

/-! Reduction lemmas: how each estimator evaluates once the branch
conditions are settled. -/

theorem estimate_stemDiameter_val {m : StemProfileModel} {s : SegP} {rg : RegP}
    {h : ℝ} (hseg : m.seg_dict = some s) (hreg : m.reg_dict = some rg)
    (hnc : ¬ diaCrash s (Dval m rg) m.height h)
    (hcx : ¬ diaComplex s m.height h)
    (hnn : 0 ≤ dia_d1 s (Dval m rg) m.height h +
      dia_d2 s (Dval m rg) m.height (dia_atGirard m rg) h +
      dia_d3 s m.height (dia_atGirard m rg) h) :
    estimate_stemDiameter m h = .val (pyround2 (Real.sqrt
      (dia_d1 s (Dval m rg) m.height h +
       dia_d2 s (Dval m rg) m.height (dia_atGirard m rg) h +
       dia_d3 s m.height (dia_atGirard m rg) h))) := by
  simp only [estimate_stemDiameter, hseg, hreg]
  rw [if_neg hnc, if_neg (not_or.mpr ⟨hcx, not_lt.2 hnn⟩)]

theorem estimate_stemDiameter_noneV {m : StemProfileModel} {s : SegP} {rg : RegP}
    {h : ℝ} (hseg : m.seg_dict = some s) (hreg : m.reg_dict = some rg)
    (hnc : ¬ diaCrash s (Dval m rg) m.height h)
    (hcx : diaComplex s m.height h ∨
      dia_d1 s (Dval m rg) m.height h +
      dia_d2 s (Dval m rg) m.height (dia_atGirard m rg) h +
      dia_d3 s m.height (dia_atGirard m rg) h < 0) :
    estimate_stemDiameter m h = .noneV := by
  simp only [estimate_stemDiameter, hseg, hreg]
  rw [if_neg hnc, if_pos hcx]

theorem estimate_stemDiameter_crash {m : StemProfileModel} {s : SegP} {rg : RegP}
    {h : ℝ} (hseg : m.seg_dict = some s) (hreg : m.reg_dict = some rg)
    (hc : diaCrash s (Dval m rg) m.height h) :
    estimate_stemDiameter m h = .crash := by
  simp only [estimate_stemDiameter, hseg, hreg]
  rw [if_pos hc]

theorem estimate_stemDiameter_unresolved {m : StemProfileModel} {h : ℝ}
    (hun : m.seg_dict = none ∨ m.reg_dict = none) :
    estimate_stemDiameter m h = .noneV := by
  rcases hun with hseg | hreg
  · simp only [estimate_stemDiameter, hseg]
  · rcases hs : m.seg_dict with - | s
    · simp only [estimate_stemDiameter, hs]
    · simp only [estimate_stemDiameter, hs, hreg]

theorem estimate_stemHeight_val {m : StemProfileModel} {s : SegP} {rg : RegP}
    {d : ℝ} (hseg : m.seg_dict = some s) (hreg : m.reg_dict = some rg)
    (hnc : ¬ hgtCrash s (Dval m rg) m.height (dia_atGirard m rg) d)
    (hcx : ¬ hgtComplex s m.height (dia_atGirard m rg) d) :
    estimate_stemHeight m d = .val (pyround2
      (hgt_h1 s (Dval m rg) m.height d +
       hgt_h2 s (Dval m rg) m.height (dia_atGirard m rg) d +
       hgt_h3 s m.height (dia_atGirard m rg) d)) := by
  simp only [estimate_stemHeight, hseg, hreg]
  rw [if_neg hnc, if_neg hcx]

theorem estimate_stemHeight_noneV {m : StemProfileModel} {s : SegP} {rg : RegP}
    {d : ℝ} (hseg : m.seg_dict = some s) (hreg : m.reg_dict = some rg)
    (hnc : ¬ hgtCrash s (Dval m rg) m.height (dia_atGirard m rg) d)
    (hcx : hgtComplex s m.height (dia_atGirard m rg) d) :
    estimate_stemHeight m d = .noneV := by
  simp only [estimate_stemHeight, hseg, hreg]
  rw [if_neg hnc, if_pos hcx]

theorem estimate_stemHeight_unresolved {m : StemProfileModel} {d : ℝ}
    (hun : m.seg_dict = none ∨ m.reg_dict = none) :
    estimate_stemHeight m d = .noneV := by
  rcases hun with hseg | hreg
  · simp only [estimate_stemHeight, hseg]
  · rcases hs : m.seg_dict with - | s
    · simp only [estimate_stemHeight, hs]
    · simp only [estimate_stemHeight, hs, hreg]

theorem estimate_volume_val {m : StemProfileModel} {s : SegP} {rg : RegP} {t : ℝ}
    {L U : ℝ} (hseg : m.seg_dict = some s) (hreg : m.reg_dict = some rg)
    (hwt : m.wt_dict = some t)
    (hnc : ¬ volCrash s (Dval m rg) m.height L U)
    (hcx : ¬ volComplex s m.height L U) :
    estimate_volume m L U = .val (pyround2 (0.005454154 *
      (vol_v1 s (Dval m rg) m.height L U +
       vol_v2 s (Dval m rg) m.height (dia_atGirard m rg) L U +
       vol_v3 s m.height (dia_atGirard m rg) L U) * t)) := by
  simp only [estimate_volume, hseg, hreg, hwt]
  rw [if_neg hnc, if_neg hcx]

theorem estimate_volume_crash {m : StemProfileModel} {s : SegP} {rg : RegP}
    {L U : ℝ} (hseg : m.seg_dict = some s) (hreg : m.reg_dict = some rg)
    (hc : volCrash s (Dval m rg) m.height L U) :
    estimate_volume m L U = .crash := by
  simp only [estimate_volume, hseg, hreg]
  rw [if_pos hc]

theorem estimate_volume_unresolved {m : StemProfileModel} {L U : ℝ}
    (hun : m.seg_dict = none ∨ m.reg_dict = none) :
    estimate_volume m L U = .noneV := by
  rcases hun with hseg | hreg
  · simp only [estimate_volume, hseg]
  · rcases hs : m.seg_dict with - | s
    · simp only [estimate_volume, hs]
    · simp only [estimate_volume, hs, hreg]

/-! Discharging the crash and complex-value conditions from structural
hypotheses on the model. -/

theorem base45_pos {H : ℝ} (hH : 17.3 < H) : 0 < 1 - 4.5 / H := by
  have hH0 : 0 < H := by linarith
  have : 4.5 / H < 1 := (div_lt_one hH0).mpr (by linarith)
  linarith

theorem base173_pos {H : ℝ} (hH : 17.3 < H) : 0 < 1 - 17.3 / H := by
  have hH0 : 0 < H := by linarith
  have : 17.3 / H < 1 := (div_lt_one hH0).mpr (by linarith)
  linarith

theorem base45_lt_one {H : ℝ} (hH : 17.3 < H) : 1 - 4.5 / H < 1 := by
  have hH0 : 0 < H := by linarith
  have : 0 < 4.5 / H := by positivity
  linarith

theorem Gv_lt_one {s : SegP} {H : ℝ} (hH : 17.3 < H) (hr : 0 < s.butt_r) :
    Gv s H < 1 := by
  rw [Gv, realPow_of_nonneg (le_of_lt (base45_pos hH))]
  exact Real.rpow_lt_one (le_of_lt (base45_pos hH)) (base45_lt_one hH) hr

theorem Yv_lt_Xv {s : SegP} {H : ℝ} (hH : 17.3 < H) (hp : 0 < s.lstem_p) :
    Yv s H < Xv s H := by
  rw [Xv, Yv, realPow_of_nonneg (le_of_lt (base45_pos hH)),
    realPow_of_nonneg (le_of_lt (base173_pos hH))]
  have hbases : 1 - 17.3 / H < 1 - 4.5 / H := by
    have hH0 : 0 < H := by linarith
    have h2 : 4.5 / H < 17.3 / H := (div_lt_div_iff_of_pos_right hH0).mpr (by norm_num)
    linarith
  exact Real.rpow_lt_rpow (le_of_lt (base173_pos hH)) hbases hp

theorem not_diaCrash_of {s : SegP} {D H h : ℝ} (hH : 17.3 < H) (hD : D ≠ 0)
    (hr : 0 ≤ s.butt_r) (hp : 0 ≤ s.lstem_p)
    (hden1 : 1 - realPow (1 - 4.5 / H) s.butt_r ≠ 0)
    (hden2 : realPow (1 - 4.5 / H) s.lstem_p - realPow (1 - 17.3 / H) s.lstem_p ≠ 0)
    (ha : s.ustem_a ≠ 0) : ¬ diaCrash s D H h := by
  intro hc
  rcases hc with hx | hx | hx | hx | hx | hx | hx | hx | hx | hx | hx
  · linarith
  · exact hD hx
  · exact not_powZeroDiv_of_exp_nonneg _ hr hx
  · exact not_powZeroDiv_of_exp_nonneg _ hr hx
  · exact hden1 hx.2
  · exact not_powZeroDiv_of_exp_nonneg _ hp hx
  · exact not_powZeroDiv_of_exp_nonneg _ hp hx
  · exact not_powZeroDiv_of_exp_nonneg _ hp hx
  · exact hden2 hx.2
  · linarith
  · exact ha hx

theorem not_diaComplex_of {s : SegP} {H h : ℝ} (hH : 17.3 < H) (hh : h ≤ H) :
    ¬ diaComplex s H h := by
  have hH0 : 0 < H := by linarith
  have hbase : 0 ≤ 1 - h / H := by
    have : h / H ≤ 1 := (div_le_one hH0).mpr hh
    linarith
  intro hc
  rcases hc with hx | hx | hx | hx | hx
  · exact not_powComplex_of_nonneg hbase _ hx
  · exact not_powComplex_of_nonneg (le_of_lt (base45_pos hH)) _ hx
  · exact not_powComplex_of_nonneg (le_of_lt (base45_pos hH)) _ hx
  · exact not_powComplex_of_nonneg hbase _ hx
  · exact not_powComplex_of_nonneg (le_of_lt (base173_pos hH)) _ hx

theorem not_hgtCrash_of {s : SegP} {D H F d : ℝ} (hH : 17.3 < H) (hD : D ≠ 0)
    (hr : 0 ≤ s.butt_r) (hp : 0 ≤ s.lstem_p)
    (hden1 : 1 - realPow (1 - 4.5 / H) s.butt_r ≠ 0)
    (hden2 : Xv s H - Yv s H ≠ 0)
    (ha : s.ustem_a ≠ 0) (hF : F ≠ 0)
    (hW : s.butt_c + s.butt_e / D ^ 3 ≠ 0) (hr0 : s.butt_r ≠ 0)
    (hZ : D ^ 2 - F ^ 2 ≠ 0) (hp0 : s.lstem_p ≠ 0)
    (hQa : hgt_Qa s F d ≠ 0) : ¬ hgtCrash s D H F d := by
  intro hc
  rcases hc with hx | hx | hx | hx | hx | hx | hx | hx | hx | hx | hx | hx | hx | hx
  · linarith
  · exact hD hx
  · exact not_powZeroDiv_of_exp_nonneg _ hr hx
  · exact hden1 hx.2
  · exact not_powZeroDiv_of_exp_nonneg _ hp hx
  · exact not_powZeroDiv_of_exp_nonneg _ hp hx
  · exact hden2 hx.2
  · exact ha hx
  · exact hF hx
  · exact hW hx
  · exact hr0 hx
  · exact hZ hx
  · exact hp0 hx
  · exact hQa hx

theorem not_hgtComplex_of {s : SegP} {H F d : ℝ} (hH : 17.3 < H)
    (hdisc : 0 ≤ hgt_disc s F d) : ¬ hgtComplex s H F d := by
  intro hc
  rcases hc with hx | hx | hx | hx
  · exact not_powComplex_of_nonneg (le_of_lt (base45_pos hH)) _ hx
  · exact not_powComplex_of_nonneg (le_of_lt (base45_pos hH)) _ hx
  · exact not_powComplex_of_nonneg (le_of_lt (base173_pos hH)) _ hx
  · linarith

theorem not_volCrash_of {s : SegP} {D H L U : ℝ} (hH : 17.3 < H) (hD : D ≠ 0)
    (hr : 0 ≤ s.butt_r) (hp : 0 ≤ s.lstem_p)
    (hden1 : 1 - realPow (1 - 4.5 / H) s.butt_r ≠ 0)
    (hden2 : Xv s H - Yv s H ≠ 0)
    (ha : s.ustem_a ≠ 0) : ¬ volCrash s D H L U := by
  intro hc
  rcases hc with hx | hx | hx | hx | hx | hx | hx | hx | hx | hx | hx | hx | hx | hx | hx
  · linarith
  · exact hD hx
  · exact not_powZeroDiv_of_exp_nonneg _ hr hx
  · exact hden1 hx.2
  · exact not_powZeroDiv_of_exp_nonneg _ hp hx
  · exact not_powZeroDiv_of_exp_nonneg _ hp hx
  · exact hden2 hx.2
  · exact not_powZeroDiv_of_exp_nonneg _ hr hx
  · exact not_powZeroDiv_of_exp_nonneg _ hr hx
  · linarith
  · exact not_powZeroDiv_of_exp_nonneg _ hp hx
  · exact not_powZeroDiv_of_exp_nonneg _ hp hx
  · linarith
  · linarith
  · exact ha hx

theorem fetch_reg_params_eq_none {db : Database} {m : StemProfileModel}
    (hreg : ∀ row ∈ db.regcoeff, row.spp ≠ m.spp) :
    fetch_reg_params db m = none := by
  rw [fetch_reg_params]
  have hfind : db.regcoeff.find? (fun row =>
      row.region == m.region && row.spp == m.spp && row.bark == m.bark) = none := by
    rw [List.find?_eq_none]
    intro row hrow
    simp only [Bool.and_eq_true, beq_iff_eq, not_and]
    intro hand
    exact absurd hand.2 (hreg row hrow)
  rw [hfind, Option.map_none']

theorem fetch_seg_params_eq_none {db : Database} {m : StemProfileModel}
    (hseg : ∀ row ∈ db.segcoeff, row.spp ≠ m.spp) :
    fetch_seg_params db m = none := by
  rw [fetch_seg_params]
  have hfind : db.segcoeff.find? (fun row =>
      row.bark == m.bark && row.spp == m.spp) = none := by
    rw [List.find?_eq_none]
    intro row hrow
    simp only [Bool.and_eq_true, beq_iff_eq, not_and]
    intro hb
    exact hseg row hrow
  rw [hfind, Option.map_none']

theorem fetch_wt_params_fallback {db : Database} {m : StemProfileModel}
    (hwt : ∀ row ∈ db.wtcoeff, row.spp ≠ m.spp) :
    fetch_wt_params db m = 0.022 := by
  rw [fetch_wt_params]
  have hfind : db.wtcoeff.find? (fun row => row.spp == m.spp) = none := by
    rw [List.find?_eq_none]
    intro row hrow
    simp only [beq_iff_eq]
    exact hwt row hrow
  rw [hfind]

theorem not_volComplex_of {s : SegP} {H L U : ℝ} (hH : 17.3 < H) (hLH : L ≤ H) :
    ¬ volComplex s H L U := by
  have hH0 : 0 < H := by linarith
  have hL1 : 0 ≤ 1 - vol_L1 L / H := by
    have h1 : vol_L1 L ≤ H := by
      rw [vol_L1]
      exact max_le hLH (by linarith)
    have : vol_L1 L / H ≤ 1 := (div_le_one hH0).mpr h1
    linarith
  have hU1 : 0 ≤ 1 - vol_U1 U / H := by
    have h1 : vol_U1 U ≤ H := le_trans (min_le_right U 4.5) (by linarith)
    have : vol_U1 U / H ≤ 1 := (div_le_one hH0).mpr h1
    linarith
  have hL2 : 0 ≤ 1 - vol_L2 L / H := by
    have h1 : vol_L2 L ≤ H := by
      rw [vol_L2]
      exact max_le hLH (by linarith)
    have : vol_L2 L / H ≤ 1 := (div_le_one hH0).mpr h1
    linarith
  have hU2 : 0 ≤ 1 - vol_U2 U / H := by
    have h1 : vol_U2 U ≤ H := le_trans (min_le_right U 17.3) (by linarith)
    have : vol_U2 U / H ≤ 1 := (div_le_one hH0).mpr h1
    linarith
  intro hc
  rcases hc with hx | hx | hx | hx | hx | hx | hx
  · exact not_powComplex_of_nonneg (le_of_lt (base45_pos hH)) _ hx
  · exact not_powComplex_of_nonneg (le_of_lt (base45_pos hH)) _ hx
  · exact not_powComplex_of_nonneg (le_of_lt (base173_pos hH)) _ hx
  · exact not_powComplex_of_nonneg hL1 _ hx
  · exact not_powComplex_of_nonneg hU1 _ hx
  · exact not_powComplex_of_nonneg hL2 _ hx
  · exact not_powComplex_of_nonneg hU2 _ hx

theorem realPow_eq_rpow {x : ℝ} (hx : 0 ≤ x) (y : ℝ) : realPow x y = x ^ y := by
  rw [realPow, if_neg (not_lt.2 hx)]
  rfl

/-- Bernoulli consequence: for `0 < x ≤ y` and `0 ≤ q`,
`(q+1)·x^q·(y-x) ≤ y^(q+1) - x^(q+1)` (real powers). -/
theorem rpow_succ_sub_ge {x y q : ℝ} (hx : 0 < x) (hxy : x ≤ y) (hq : 0 ≤ q) :
    (q + 1) * x ^ q * (y - x) ≤ y ^ (q+1) - x ^ (q+1) := by
  have hy : 0 ≤ y := le_trans hx.le hxy
  have hs0 : 0 ≤ y / x - 1 := by
    have : 1 ≤ y / x := (one_le_div hx).mpr hxy
    linarith
  have hbern : 1 + (q+1) * (y / x - 1) ≤ (1 + (y / x - 1)) ^ (q+1) :=
    one_add_mul_self_le_rpow_one_add (by linarith) (by linarith)
  have h1s : 1 + (y / x - 1) = y / x := by ring
  rw [h1s] at hbern
  have hdiv : (y / x) ^ (q+1) = y ^ (q+1) / x ^ (q+1) := Real.div_rpow hy hx.le _
  rw [hdiv] at hbern
  have hxq1 : (0:ℝ) < x ^ (q+1) := Real.rpow_pos_of_pos hx _
  have hmul := mul_le_mul_of_nonneg_right hbern hxq1.le
  rw [div_mul_cancel₀ _ hxq1.ne'] at hmul
  have hxadd : x ^ (q+1) = x ^ q * x := Real.rpow_add_one hx.ne' q
  have hsx : (y / x - 1) * x = y - x := by field_simp
  calc (q + 1) * x ^ q * (y - x)
      = (q + 1) * x ^ q * ((y / x - 1) * x) := by rw [hsx]
    _ = (1 + (q+1) * (y/x - 1)) * (x ^ q * x) - 1 * (x ^ q * x) := by ring
    _ = (1 + (q+1) * (y/x - 1)) * x ^ (q+1) - x ^ (q+1) := by rw [← hxadd]; ring
    _ ≤ y ^ (q+1) - x ^ (q+1) := by nlinarith [hmul]

/-- Monotone part of the clamped antiderivative terms `v1`/`v2`:
`w ↦ A·w - B·(1-w/H)^q·(H-w)/(q+1)` is nondecreasing from `u` to `v` when
`A + B·(1-v/H)^q ≥ 0`, `B ≥ 0`, `0 ≤ q` and `u ≤ v < H`. -/
theorem antider_mono {A B H q u v : ℝ} (hH0 : 0 < H) (hq : 0 ≤ q) (hB : 0 ≤ B)
    (huv : u ≤ v) (hvH : v < H)
    (hbound : 0 ≤ A + B * (1 - v/H) ^ q) :
    0 ≤ A * (v - u) + B * ((1 - u/H) ^ q * (H - u) - (1 - v/H) ^ q * (H - v)) / (q+1) := by
  have hx : 0 < 1 - v/H := by
    have : v/H < 1 := (div_lt_one hH0).mpr hvH
    linarith
  have hxy : 1 - v/H ≤ 1 - u/H := by
    have huvH : u/H ≤ v/H := (div_le_div_iff_of_pos_right hH0).mpr huv
    linarith
  have hy : 0 < 1 - u/H := lt_of_lt_of_le hx hxy
  have key := rpow_succ_sub_ge hx hxy hq
  have hq1 : (0:ℝ) < q + 1 := by linarith
  have hyadd : (1 - u/H) ^ (q+1) = (1 - u/H) ^ q * (1 - u/H) :=
    Real.rpow_add_one hy.ne' q
  have hxadd : (1 - v/H) ^ (q+1) = (1 - v/H) ^ q * (1 - v/H) :=
    Real.rpow_add_one hx.ne' q
  rw [hyadd, hxadd] at key
  have hHu : H - u = H * (1 - u/H) := by field_simp
  have hHv : H - v = H * (1 - v/H) := by field_simp
  rw [hHu, hHv]
  have hvu : v - u = H * ((1 - u/H) - (1 - v/H)) := by field_simp
  have h2 : B * (1 - v/H) ^ q * (H * ((1 - u/H) - (1 - v/H))) ≤
      B * ((1 - u/H) ^ q * (H * (1 - u/H)) - (1 - v/H) ^ q * (H * (1 - v/H))) / (q+1) := by
    rw [le_div_iff₀ hq1]
    have hkeyB := mul_le_mul_of_nonneg_left key hB
    have hkeyBH := mul_le_mul_of_nonneg_left hkeyB hH0.le
    nlinarith [hkeyBH]
  have hyx : 0 ≤ (1 - u/H) - (1 - v/H) := by linarith
  have h3 : 0 ≤ (A + B * (1 - v/H) ^ q) * (H * ((1 - u/H) - (1 - v/H))) :=
    mul_nonneg hbound (mul_nonneg hH0.le hyx)
  rw [hvu]
  nlinarith [h2, h3]

/-- The part of the upper-stem antiderivative `v3` that varies with the
clamped upper variable (`s1 = L3 - 17.3` or a smaller clamp, `s2 = U3 - 17.3`,
`k = H - 17.3`). -/
noncomputable def v3core (b a k s1 s2 : ℝ) : ℝ :=
  b * (s2 - s1) - b * (s2^2 - s1^2) / k + (b/3) * (s2^3 - s1^3) / k^2
  + ((if s1 < a*k then (1:ℝ) else 0) * (1/3) * ((1-b)/a^2) * (a*k - s1)^3 / k^2
     - (if s2 < a*k then (1:ℝ) else 0) * (1/3) * ((1-b)/a^2) * (a*k - s2)^3 / k^2)

/-- Monotone core of the upper-stem antiderivative `v3`. -/
theorem v3_core {b a k s1 s2 : ℝ} (hb0 : 0 ≤ b) (hb1 : b ≤ 1) (ha : 0 < a)
    (hk : 0 < k) (h0 : 0 ≤ s1) (h12 : s1 ≤ s2) (h2k : s2 ≤ k) :
    0 ≤ v3core b a k s1 s2 := by
  rw [v3core]
  have hbpart : 0 ≤ b * (s2 - s1) - b * (s2^2 - s1^2) / k + (b/3) * (s2^3 - s1^3) / k^2 := by
    have hident : b * (s2 - s1) - b * (s2^2 - s1^2) / k + (b/3) * (s2^3 - s1^3) / k^2
        = (b / (3 * k^2)) * ((k - s1)^3 - (k - s2)^3) := by
      field_simp
      ring
    rw [hident]
    apply mul_nonneg (by positivity)
    have hcube : (k - s2)^3 ≤ (k - s1)^3 :=
      pow_le_pow_left₀ (by linarith) (by linarith) 3
    linarith
  have h1b : (0:ℝ) ≤ 1 - b := by linarith
  have hth : 0 ≤ (if s1 < a*k then (1:ℝ) else 0) * (1/3) * ((1-b)/a^2) * (a*k - s1)^3 / k^2
      - (if s2 < a*k then (1:ℝ) else 0) * (1/3) * ((1-b)/a^2) * (a*k - s2)^3 / k^2 := by
    have hfac : (0:ℝ) ≤ 1/3 * ((1-b)/a^2) / k^2 :=
      div_nonneg (mul_nonneg (by norm_num) (div_nonneg h1b (sq_nonneg a))) (sq_nonneg k)
    by_cases h2a : s2 < a*k
    · have h1a : s1 < a*k := lt_of_le_of_lt h12 h2a
      rw [if_pos h1a, if_pos h2a]
      have hcube : (a*k - s2)^3 ≤ (a*k - s1)^3 :=
        pow_le_pow_left₀ (by linarith) (by linarith) 3
      have hmul := mul_le_mul_of_nonneg_left hcube hfac
      have hring : (1:ℝ) * (1/3) * ((1-b)/a^2) * (a*k - s1)^3 / k^2 -
          1 * (1/3) * ((1-b)/a^2) * (a*k - s2)^3 / k^2 =
          1/3 * ((1-b)/a^2) / k^2 * (a*k-s1)^3 - 1/3 * ((1-b)/a^2) / k^2 * (a*k-s2)^3 := by
        ring
      linarith [hmul, hring]
    · rw [if_neg h2a]
      by_cases h1a : s1 < a*k
      · rw [if_pos h1a]
        have h3 : (0:ℝ) ≤ (a*k - s1)^3 := pow_nonneg (by linarith) 3
        have hpos : (0:ℝ) ≤ 1 * (1/3) * ((1-b)/a^2) * (a*k - s1)^3 / k^2 := by
          apply div_nonneg _ (sq_nonneg k)
          apply mul_nonneg _ h3
          apply mul_nonneg _ (div_nonneg h1b (sq_nonneg a))
          norm_num
        have hz : (0:ℝ) * (1/3) * ((1-b)/a^2) * (a*k - s2)^3 / k^2 = 0 := by ring
        rw [hz, sub_zero]
        exact hpos
      · rw [if_neg h1a]
        have hz1 : (0:ℝ) * (1/3) * ((1-b)/a^2) * (a*k - s1)^3 / k^2 = 0 := by ring
        have hz2 : (0:ℝ) * (1/3) * ((1-b)/a^2) * (a*k - s2)^3 / k^2 = 0 := by ring
        rw [hz1, hz2, sub_zero]
  linarith [hbpart, hth]

/-- `v1` is nondecreasing in the upper bound (fixed lower bound) when the
butt exponent is positive and `W ≥ 0`. -/
theorem vol_v1_mono {s : SegP} {D H L U V : ℝ} (hH : 17.3 < H)
    (hr : 0 < s.butt_r) (hW : 0 ≤ Wv s D H)
    (hL : 0 ≤ L) (hLU : L ≤ U) (hUV : U ≤ V) (hVH : V ≤ H) :
    vol_v1 s D H L U ≤ vol_v1 s D H L V := by
  by_cases hi1 : L < 4.5
  · have hi1v : vol_i1 L = 1 := by rw [vol_i1, if_pos hi1]
    have hH0 : (0:ℝ) < H := by linarith
    have hL1 : vol_L1 L = L := max_eq_left hL
    have hU1V1 : vol_U1 U ≤ vol_U1 V := min_le_min hUV le_rfl
    have hV145 : vol_U1 V ≤ 4.5 := min_le_right V 4.5
    have hV1H : vol_U1 V < H := lt_of_le_of_lt hV145 (by linarith)
    have hU1H : vol_U1 U ≤ H := le_trans (le_trans hU1V1 hV145) (by linarith)
    have hLH : L ≤ H := le_trans hLU (le_trans hUV hVH)
    have hbZ : (0:ℝ) ≤ 1 - vol_U1 V / H := by
      have : vol_U1 V / H < 1 := (div_lt_one hH0).mpr hV1H
      linarith
    have hbU : (0:ℝ) ≤ 1 - vol_U1 U / H := by
      have : vol_U1 U / H ≤ 1 := (div_le_one hH0).mpr hU1H
      linarith
    have hbL : (0:ℝ) ≤ 1 - L / H := by
      have : L / H ≤ 1 := (div_le_one hH0).mpr hLH
      linarith
    have hbound : 0 ≤ (1 - Gv s H * Wv s D H) + Wv s D H * (1 - vol_U1 V / H) ^ s.butt_r := by
      have hbase : (1:ℝ) - 4.5/H ≤ 1 - vol_U1 V / H := by
        have : vol_U1 V / H ≤ 4.5 / H := (div_le_div_iff_of_pos_right hH0).mpr hV145
        linarith
      have hGle : Gv s H ≤ (1 - vol_U1 V / H) ^ s.butt_r := by
        rw [Gv, realPow_eq_rpow (le_of_lt (base45_pos hH))]
        exact Real.rpow_le_rpow (le_of_lt (base45_pos hH)) hbase hr.le
      nlinarith [mul_nonneg hW (sub_nonneg.mpr hGle)]
    have hcore := antider_mono hH0 hr.le hW hU1V1 hV1H hbound
    have hdiff : vol_v1 s D H L V - vol_v1 s D H L U = D^2 *
        ((1 - Gv s H * Wv s D H) * (vol_U1 V - vol_U1 U) + Wv s D H *
          ((1 - vol_U1 U / H) ^ s.butt_r * (H - vol_U1 U) -
           (1 - vol_U1 V / H) ^ s.butt_r * (H - vol_U1 V)) / (s.butt_r + 1)) := by
      rw [vol_v1, vol_v1, hi1v, hL1,
        realPow_eq_rpow hbL, realPow_eq_rpow hbU, realPow_eq_rpow hbZ]
      ring
    nlinarith [mul_nonneg (sq_nonneg D) hcore, hdiff]
  · have hi1v : vol_i1 L = 0 := by rw [vol_i1, if_neg hi1]
    have h1 : vol_v1 s D H L U = 0 := by rw [vol_v1, hi1v]; ring
    have h2 : vol_v1 s D H L V = 0 := by rw [vol_v1, hi1v]; ring
    rw [h1, h2]

/-- `v2` is nondecreasing in the upper bound (fixed lower bound) when the
lower-stem exponent is positive and `F² ≤ D²`. -/
theorem vol_v2_mono {s : SegP} {D H F L U V : ℝ} (hH : 17.3 < H)
    (hp : 0 < s.lstem_p) (hDF : F^2 ≤ D^2)
    (hLU : L ≤ U) (hUV : U ≤ V) (hVH : V ≤ H) :
    vol_v2 s D H F L U ≤ vol_v2 s D H F L V := by
  have hH0 : (0:ℝ) < H := by linarith
  have hXY : Yv s H < Xv s H := Yv_lt_Xv hH hp
  have hZnn : 0 ≤ Zv s D H F := by
    rw [Zv]
    exact div_nonneg (by linarith) (by linarith)
  have hZcancel : Zv s D H F * (Xv s H - Yv s H) = D^2 - F^2 := by
    rw [Zv]
    exact div_mul_cancel₀ _ (by linarith)
  have hbound : ∀ w : ℝ, w ≤ 17.3 →
      0 ≤ Tv s D H F + Zv s D H F * (1 - w / H) ^ s.lstem_p := by
    intro w hw
    have hbase : (1:ℝ) - 17.3/H ≤ 1 - w / H := by
      have : w / H ≤ 17.3 / H := (div_le_div_iff_of_pos_right hH0).mpr hw
      linarith
    have hYle : Yv s H ≤ (1 - w / H) ^ s.lstem_p := by
      rw [Yv, realPow_eq_rpow (le_of_lt (base173_pos hH))]
      exact Real.rpow_le_rpow (le_of_lt (base173_pos hH)) hbase hp.le
    have hF2 : (0:ℝ) ≤ F^2 := sq_nonneg F
    rw [Tv]
    nlinarith [mul_le_mul_of_nonneg_left hYle hZnn]
  by_cases hi2 : L < 17.3
  · have hi2v : vol_i2 L = 1 := by rw [vol_i2, if_pos hi2]
    by_cases hi3V : 4.5 < V
    · have hi3Vv : vol_i3 V = 1 := by rw [vol_i3, if_pos hi3V]
      have hV2 : vol_U2 V ≤ 17.3 := min_le_right V 17.3
      have hV2H : vol_U2 V < H := lt_of_le_of_lt hV2 (by linarith)
      have hbV : (0:ℝ) ≤ 1 - vol_U2 V / H := by
        have : vol_U2 V / H ≤ 1 := (div_le_one hH0).mpr (le_of_lt hV2H)
        linarith
      have hbL2 : (0:ℝ) ≤ 1 - vol_L2 L / H := by
        have h1 : vol_L2 L ≤ H := max_le (le_trans hLU (le_trans hUV hVH)) (by linarith)
        have : vol_L2 L / H ≤ 1 := (div_le_one hH0).mpr h1
        linarith
      by_cases hi3U : 4.5 < U
      · have hi3Uv : vol_i3 U = 1 := by rw [vol_i3, if_pos hi3U]
        have hU2V2 : vol_U2 U ≤ vol_U2 V := min_le_min hUV le_rfl
        have hbU2 : (0:ℝ) ≤ 1 - vol_U2 U / H := by
          have h1 : vol_U2 U ≤ H := le_trans (min_le_right U 17.3) (by linarith)
          have : vol_U2 U / H ≤ 1 := (div_le_one hH0).mpr h1
          linarith
        have hcore := antider_mono hH0 hp.le hZnn hU2V2 hV2H
          (hbound (vol_U2 V) hV2)
        have hdiff : vol_v2 s D H F L V - vol_v2 s D H F L U =
            Tv s D H F * (vol_U2 V - vol_U2 U) + Zv s D H F *
              ((1 - vol_U2 U / H) ^ s.lstem_p * (H - vol_U2 U) -
               (1 - vol_U2 V / H) ^ s.lstem_p * (H - vol_U2 V)) / (s.lstem_p + 1) := by
          rw [vol_v2, vol_v2, hi2v, hi3Uv, hi3Vv,
            realPow_eq_rpow hbL2, realPow_eq_rpow hbU2, realPow_eq_rpow hbV]
          ring
        linarith [hcore, hdiff]
      · have hi3Uv : vol_i3 U = 0 := by rw [vol_i3, if_neg hi3U]
        have h1 : vol_v2 s D H F L U = 0 := by rw [vol_v2, hi3Uv]; ring
        have hL2V2 : vol_L2 L ≤ vol_U2 V := by
          apply le_min
          · exact max_le (le_trans hLU hUV) (by linarith)
          · exact max_le (by linarith) (by norm_num)
        have hcore := antider_mono hH0 hp.le hZnn hL2V2 hV2H
          (hbound (vol_U2 V) hV2)
        have hval : vol_v2 s D H F L V =
            Tv s D H F * (vol_U2 V - vol_L2 L) + Zv s D H F *
              ((1 - vol_L2 L / H) ^ s.lstem_p * (H - vol_L2 L) -
               (1 - vol_U2 V / H) ^ s.lstem_p * (H - vol_U2 V)) / (s.lstem_p + 1) := by
          rw [vol_v2, hi2v, hi3Vv,
            realPow_eq_rpow hbL2, realPow_eq_rpow hbV]
          ring
        linarith [hcore, hval, h1]
    · have hi3U : ¬ 4.5 < U := fun hx => hi3V (lt_of_lt_of_le hx hUV)
      have h1 : vol_v2 s D H F L U = 0 := by
        rw [vol_v2, vol_i3, if_neg hi3U]; ring
      have h2 : vol_v2 s D H F L V = 0 := by
        rw [vol_v2, vol_i3, if_neg hi3V]; ring
      rw [h1, h2]
  · have hi2v : vol_i2 L = 0 := by rw [vol_i2, if_neg hi2]
    have h1 : vol_v2 s D H F L U = 0 := by rw [vol_v2, hi2v]; ring
    have h2 : vol_v2 s D H F L V = 0 := by rw [vol_v2, hi2v]; ring
    rw [h1, h2]

/-- `v3` is nondecreasing in the upper bound (fixed lower bound) when
`0 ≤ b ≤ 1` and `a > 0`. -/
theorem vol_v3_mono {s : SegP} {H F L U V : ℝ} (hH : 17.3 < H)
    (hb0 : 0 ≤ s.ustem_b) (hb1 : s.ustem_b ≤ 1) (ha : 0 < s.ustem_a)
    (hLU : L ≤ U) (hUV : U ≤ V) (hVH : V ≤ H) :
    vol_v3 s H F L U ≤ vol_v3 s H F L V := by
  have hk : (0:ℝ) < H - 17.3 := by linarith
  by_cases hi4V : 17.3 < V
  · have hi4Vv : vol_i4 V = 1 := by rw [vol_i4, if_pos hi4V]
    have hLH : L ≤ H := le_trans hLU (le_trans hUV hVH)
    have hL3 : (17.3:ℝ) ≤ vol_L3 L := le_max_right L 17.3
    have hL3H : vol_L3 L ≤ H := max_le hLH (by linarith)
    have hV3H : vol_U3 H V ≤ H := min_le_right V H
    have hV3_17 : (17.3:ℝ) ≤ vol_U3 H V := le_min (le_of_lt hi4V) (by linarith)
    have hLV3 : vol_L3 L ≤ vol_U3 H V :=
      max_le (le_min (le_trans hLU hUV) hLH) (le_min (le_of_lt hi4V) (by linarith))
    by_cases hi4U : 17.3 < U
    · have hi4Uv : vol_i4 U = 1 := by rw [vol_i4, if_pos hi4U]
      have hU3_17 : (17.3:ℝ) ≤ vol_U3 H U := le_min (le_of_lt hi4U) (by linarith)
      have hU3V3 : vol_U3 H U ≤ vol_U3 H V := min_le_min hUV le_rfl
      have hcore := v3_core hb0 hb1 ha hk
        (by linarith : (0:ℝ) ≤ vol_U3 H U - 17.3)
        (by linarith : vol_U3 H U - 17.3 ≤ vol_U3 H V - 17.3)
        (by have := min_le_right V H; linarith : vol_U3 H V - 17.3 ≤ H - 17.3)
      have hdiff : vol_v3 s H F L V - vol_v3 s H F L U =
          F^2 * v3core s.ustem_b s.ustem_a (H - 17.3)
            (vol_U3 H U - 17.3) (vol_U3 H V - 17.3) := by
        simp only [vol_v3, v3core, vol_i5, vol_i6, hi4Uv, hi4Vv]
        ring
      nlinarith [mul_nonneg (sq_nonneg F) hcore, hdiff]
    · have hi4Uv : vol_i4 U = 0 := by rw [vol_i4, if_neg hi4U]
      have h1 : vol_v3 s H F L U = 0 := by rw [vol_v3, hi4Uv]; ring
      have hcore := v3_core hb0 hb1 ha hk
        (by linarith : (0:ℝ) ≤ vol_L3 L - 17.3)
        (by linarith : vol_L3 L - 17.3 ≤ vol_U3 H V - 17.3)
        (by have := min_le_right V H; linarith : vol_U3 H V - 17.3 ≤ H - 17.3)
      have hval : vol_v3 s H F L V =
          F^2 * v3core s.ustem_b s.ustem_a (H - 17.3)
            (vol_L3 L - 17.3) (vol_U3 H V - 17.3) := by
        simp only [vol_v3, v3core, vol_i5, vol_i6, hi4Vv]
        ring
      nlinarith [mul_nonneg (sq_nonneg F) hcore, hval, h1]
  · have hi4U : ¬ 17.3 < U := fun hx => hi4V (lt_of_lt_of_le hx hUV)
    have h1 : vol_v3 s H F L U = 0 := by
      rw [vol_v3, vol_i4, if_neg hi4U]; ring
    have h2 : vol_v3 s H F L V = 0 := by
      rw [vol_v3, vol_i4, if_neg hi4V]; ring
    rw [h1, h2]

/-- A model resolved against a database that has no rows at all:
both coefficient lookups fail (`None`), the weight falls back to 0.022. -/
noncomputable def mUnresolved : StemProfileModel :=
  (fetch_params ⟨[], [], []⟩ (initStemProfileModel "deep south" "Holly" 16 90 1)).1

/-- Claim C8 (corrected), counterexample: `__init__` performs no validation.
It accepts `dbh = -1 ≤ 0`, `height = 5 ≤ 17.3` and the bark indicator `3`
(outside `{0,1}`) and stores them verbatim; there is no `InvalidDimension`
failure (the constructor cannot fail at all). -/
theorem C8_counterexample :
    (initStemProfileModel "deep south" "loblolly pine" (-1) 5 3).dbh = -1 ∧
    (initStemProfileModel "deep south" "loblolly pine" (-1) 5 3).height = 5 ∧
    (initStemProfileModel "deep south" "loblolly pine" (-1) 5 3).bark = 3 :=
  ⟨rfl, rfl, rfl⟩

/-- Claim C8, amended: the constructor validates nothing; every input —
including nonpositive `dbh`, `height ≤ 17.3` and bark indicators outside
`{0,1}` — is accepted and all five descriptors are stored verbatim. -/
theorem C8_amended (region spp : String) (dbh height : ℝ) (bark : ℤ) :
    (initStemProfileModel region spp dbh height bark).region = region ∧
    (initStemProfileModel region spp dbh height bark).spp = spp ∧
    (initStemProfileModel region spp dbh height bark).dbh = dbh ∧
    (initStemProfileModel region spp dbh height bark).height = height ∧
    (initStemProfileModel region spp dbh height bark).bark = bark :=
  ⟨rfl, rfl, rfl, rfl, rfl⟩

/-- Claim C2 (corrected), counterexample: on a model whose regression and
segmentation groups are unresolved (`None` after a failed resolve), all
three estimators silently return `None` — exactly the sentinel behavior the
claim says cannot happen; no `UnresolvedParameters` error exists. -/
theorem C2_counterexample :
    mUnresolved.seg_dict = none ∧ mUnresolved.reg_dict = none ∧
    estimate_stemDiameter mUnresolved 50 = PyRes.noneV ∧
    estimate_stemHeight mUnresolved 9.8 = PyRes.noneV ∧
    estimate_volume mUnresolved 1 17 = PyRes.noneV :=
  ⟨rfl, rfl, estimate_stemDiameter_unresolved (Or.inl rfl),
   estimate_stemHeight_unresolved (Or.inl rfl),
   estimate_volume_unresolved (Or.inl rfl)⟩

/-- Claim C2, amended: for every model whose segmentation or regression
group is `None`, each of the three estimators catches the resulting
`TypeError` and silently returns `None` (`noneV`) — no explicit
`UnresolvedParameters` failure is ever produced. -/
theorem C2_amended (m : StemProfileModel) (h d L U : ℝ)
    (hun : m.seg_dict = none ∨ m.reg_dict = none) :
    estimate_stemDiameter m h = PyRes.noneV ∧
    estimate_stemHeight m d = PyRes.noneV ∧
    estimate_volume m L U = PyRes.noneV :=
  ⟨estimate_stemDiameter_unresolved hun, estimate_stemHeight_unresolved hun,
   estimate_volume_unresolved hun⟩

/-- Witness for C2_amended at the concrete unresolved model. -/
theorem C2_witness :
    estimate_stemDiameter mUnresolved 5 = PyRes.noneV ∧
    estimate_stemHeight mUnresolved 5 = PyRes.noneV ∧
    estimate_volume mUnresolved 0 10 = PyRes.noneV :=
  C2_amended mUnresolved 5 5 0 10 (Or.inl rfl)

/-- Claim C5 (confirmed): when the model's species has no row in any
coefficient table, `fetch_params` leaves the regression and segmentation
groups unresolved (`None`), emits the two diagnostics that name exactly
those two groups (the code reports the lookup failure by printing these
messages), and the weight lookup still succeeds via the fixed fallback
`0.022` tons per cubic foot — the weight fetch cannot fail. -/
theorem C5_missing_species (db : Database) (m : StemProfileModel)
    (hreg : ∀ row ∈ db.regcoeff, row.spp ≠ m.spp)
    (hseg : ∀ row ∈ db.segcoeff, row.spp ≠ m.spp)
    (hwt : ∀ row ∈ db.wtcoeff, row.spp ≠ m.spp) :
    (fetch_params db m).1.reg_dict = none ∧
    (fetch_params db m).1.seg_dict = none ∧
    (fetch_params db m).1.wt_dict = some 0.022 ∧
    (fetch_params db m).2 = [regErrMsg, segErrMsg] := by
  have h1 := fetch_reg_params_eq_none hreg
  have h2 := fetch_seg_params_eq_none hseg
  have h3 := fetch_wt_params_fallback hwt
  refine ⟨?_, ?_, ?_, ?_⟩ <;> simp [fetch_params, h1, h2, h3]

/-- A database holding rows only for other species. -/
def dbOther : Database :=
  ⟨[⟨"deep south", "loblolly pine", 1, 0.9, 0.92, 0.8, 0.1⟩],
   [⟨1, "loblolly pine", 2, 1, 0, 2, 0.5, 0.5⟩],
   [⟨"loblolly pine", 0.022⟩]⟩

/-- Witness for C5_missing_species: resolving a "Holly" model against a
database whose rows are all for "loblolly pine". -/
theorem C5_witness :
    (fetch_params dbOther (initStemProfileModel "deep south" "Holly" 16 90 1)).1.reg_dict = none ∧
    (fetch_params dbOther (initStemProfileModel "deep south" "Holly" 16 90 1)).1.seg_dict = none ∧
    (fetch_params dbOther (initStemProfileModel "deep south" "Holly" 16 90 1)).1.wt_dict = some 0.022 ∧
    (fetch_params dbOther (initStemProfileModel "deep south" "Holly" 16 90 1)).2 = [regErrMsg, segErrMsg] :=
  C5_missing_species dbOther (initStemProfileModel "deep south" "Holly" 16 90 1)
    (by intro row hrow; simp only [dbOther, List.mem_singleton] at hrow; subst hrow; decide)
    (by intro row hrow; simp only [dbOther, List.mem_singleton] at hrow; subst hrow; decide)
    (by intro row hrow; simp only [dbOther, List.mem_singleton] at hrow; subst hrow; decide)

/-- Claim C7, amended: on a resolved model with `height == 17.3`,
`estimate_stemDiameter` and `estimate_volume` evaluate `(h-17.3)/(H-17.3)`
resp. `/(H-17.3)` and die with an uncaught `ZeroDivisionError` (a crash, not
an explicit `DomainError` failure result); `estimate_stemHeight` contains no
division by `H - 17.3` (it only multiplies by it) and can return a plain
numeric value instead — see the counterexample. -/
theorem C7_amended (m : StemProfileModel) (s : SegP) (rg : RegP) (h L U : ℝ)
    (hseg : m.seg_dict = some s) (hreg : m.reg_dict = some rg)
    (hH : m.height = 17.3) :
    estimate_stemDiameter m h = PyRes.crash ∧
    estimate_volume m L U = PyRes.crash := by
  constructor
  · refine estimate_stemDiameter_crash hseg hreg ?_
    rw [hH]
    simp [diaCrash]
  · refine estimate_volume_crash hseg hreg ?_
    rw [hH]
    simp [volCrash]

/-- Segment coefficients used for the concrete Girard-height models
(modelled from the spec: the species tables are not part of `src/`, so the
coefficient values are free; these are type-valid floats). -/
noncomputable def segC7 : SegP := ⟨2, 1, 0, 2, 1/2, 1/2⟩

/-- Regression coefficients for the concrete Girard-height model: they make
the Girard diameter `F = round(10 * 0.5, 2) = 5`. -/
noncomputable def regC7 : RegP := ⟨0.9, 0.92, 0.5, 0⟩

/-- A resolved outside-bark model with total height exactly 17.3 ft. -/
noncomputable def mC7 : StemProfileModel :=
  ⟨"deep south", "loblolly pine", 10, 17.3, 0, some regC7, some segC7, some 0.022⟩

/-- Witness for C7_amended at the concrete resolved model with
`height = 17.3`. -/
theorem C7_witness :
    estimate_stemDiameter mC7 20 = PyRes.crash ∧
    estimate_volume mC7 1 20 = PyRes.crash :=
  C7_amended mC7 segC7 regC7 20 1 20 rfl rfl rfl

/-- Claim C7 (corrected), counterexample: on a resolved model with
`height == 17.3`, `estimate_stemDiameter` dies with an uncaught
`ZeroDivisionError` (crash) rather than returning an explicit `DomainError`
failure result, while `estimate_stemHeight` — which the claim also lists —
returns the plain numeric value `13.76` with no failure at all. -/
theorem C7_counterexample :
    estimate_stemDiameter mC7 20 = PyRes.crash ∧
    estimate_stemHeight mC7 9 = PyRes.val 13.76 := by
  have hseg : mC7.seg_dict = some segC7 := rfl
  have hreg : mC7.reg_dict = some regC7 := rfl
  constructor
  · refine estimate_stemDiameter_crash hseg hreg ?_
    have hH : mC7.height = 17.3 := rfl
    rw [hH]
    simp [diaCrash]
  · have hD : Dval mC7 regC7 = 10 := by
      rw [Dval, if_neg]
      · rfl
      · intro hx
        simp only [mC7] at hx
        exact absurd hx (by decide)
    have hH : mC7.height = 17.3 := rfl
    have hF : dia_atGirard mC7 regC7 = 5 := by
      rw [dia_atGirard]
      have h5 : mC7.dbh * (regC7.reg17_a + regC7.reg17_b * (17.3 / mC7.height) ^ 2) = 5 := by
        simp only [mC7, regC7]
        norm_num
      rw [h5, pyround2_eq_of 500 (by norm_num) (by norm_num)]
      norm_num
    have hXv : Xv segC7 17.3 = 16384/29929 := by
      rw [Xv]
      have hb : (1 : ℝ) - 4.5/17.3 = 128/173 := by norm_num
      have hp2 : segC7.lstem_p = 2 := rfl
      rw [hb, hp2, realPow_two (by norm_num)]
      norm_num
    have hYv : Yv segC7 17.3 = 0 := by
      rw [Yv]
      have hb : (1 : ℝ) - 17.3/17.3 = 0 := by norm_num
      have hp2 : segC7.lstem_p = 2 := rfl
      rw [hb, hp2, realPow_two le_rfl]
      norm_num
    have hidS : hgt_id_S 10 9 = 0 := by
      rw [hgt_id_S, if_neg]
      norm_num
    have hidB : hgt_id_B 10 5 9 = 1 := by
      rw [hgt_id_B, if_pos]
      constructor <;> norm_num
    have hidT : hgt_id_T 5 9 = 0 := by
      rw [hgt_id_T, if_neg]
      norm_num
    have hidM : hgt_id_M segC7 5 9 = 1 := by
      rw [hgt_id_M, if_pos]
      simp only [segC7]
      norm_num
    have hQa : hgt_Qa segC7 5 9 = 5/2 := by
      rw [hgt_Qa, hidM]
      simp only [segC7]
      norm_num
    have hQb : hgt_Qb segC7 5 9 = -3 := by
      rw [hgt_Qb, hidM]
      simp only [segC7]
      norm_num
    have hQc : hgt_Qc segC7 5 9 = -56/25 := by
      rw [hgt_Qc, hidM]
      simp only [segC7]
      norm_num
    have hdisc : hgt_disc segC7 5 9 = 157/5 := by
      rw [hgt_disc, hQa, hQb, hQc]
      norm_num
    have hG173 : realPow ((1:ℝ) - 4.5/17.3) segC7.butt_r = 16384/29929 := by
      have hb : (1 : ℝ) - 4.5/17.3 = 128/173 := by norm_num
      have hr2 : segC7.butt_r = 2 := rfl
      rw [hb, hr2, realPow_two (by norm_num)]
      norm_num
    have hnc : ¬ hgtCrash segC7 10 17.3 5 9 := by
      intro hc
      simp only [hgtCrash] at hc
      rcases hc with hx|hx|hx|hx|hx|hx|hx|hx|hx|hx|hx|hx|hx|hx
      · norm_num at hx
      · norm_num at hx
      · exact not_powZeroDiv_of_exp_nonneg _ (by norm_num [segC7]) hx
      · rw [hG173] at hx
        norm_num at hx
      · exact not_powZeroDiv_of_exp_nonneg _ (by norm_num [segC7]) hx
      · exact not_powZeroDiv_of_exp_nonneg _ (by norm_num [segC7]) hx
      · rw [hXv, hYv] at hx
        norm_num at hx
      · norm_num [segC7] at hx
      · norm_num at hx
      · norm_num [segC7] at hx
      · norm_num [segC7] at hx
      · norm_num at hx
      · norm_num [segC7] at hx
      · rw [hQa] at hx
        norm_num at hx
    have hcx : ¬ hgtComplex segC7 17.3 5 9 := by
      intro hc
      simp only [hgtComplex] at hc
      rcases hc with hx|hx|hx|hx
      · exact not_powComplex_of_nonneg (by norm_num) _ hx
      · exact not_powComplex_of_nonneg (by norm_num) _ hx
      · exact not_powComplex_of_nonneg (by norm_num) _ hx
      · rw [hdisc] at hx
        norm_num at hx
    have hnc2 : ¬ hgtCrash segC7 (Dval mC7 regC7) mC7.height (dia_atGirard mC7 regC7) 9 := by
      rw [hD, hH, hF]
      exact hnc
    have hcx2 : ¬ hgtComplex segC7 mC7.height (dia_atGirard mC7 regC7) 9 := by
      rw [hH, hF]
      exact hcx
    rw [estimate_stemHeight_val hseg hreg hnc2 hcx2, hD, hH, hF]
    have hh1 : hgt_h1 segC7 10 17.3 9 = 0 := by
      rw [hgt_h1, hidS]
      ring
    have hh3 : hgt_h3 segC7 17.3 5 9 = 0 := by
      rw [hgt_h3, hidT]
      ring
    have hh2 : hgt_h2 segC7 10 17.3 5 9 = 308964679/22446750 := by
      rw [hgt_h2, hidB, Zv, hXv, hYv]
      norm_num [segC7]
    rw [hh1, hh2, hh3]
    have hsum : (0:ℝ) + 308964679/22446750 + 0 = 308964679/22446750 := by ring
    rw [hsum, pyround2_eq_of 1376 (by norm_num) (by norm_num)]
    norm_num

/-- Segment coefficients for the concrete reference-style models (modelled
from the spec: the species tables are not part of `src/`, so coefficient
values are free type-valid floats). -/
noncomputable def segRef : SegP := ⟨2, 1, 0, 2, 1/2, 1/2⟩

/-- Regression coefficients for the reference-style models; they give the
Girard diameter `F = round(10 * 0.5, 2) = 5`. -/
noncomputable def regRef : RegP := ⟨0.9, 0.92, 0.5, 0⟩

/-- A resolved outside-bark model: dbh 10 in, height 90 ft. -/
noncomputable def mRef : StemProfileModel :=
  ⟨"deep south", "loblolly pine", 10, 90, 0, some regRef, some segRef, some 0.022⟩

theorem mRef_height : mRef.height = 90 := rfl

theorem mRef_Dval : Dval mRef regRef = 10 := by
  rw [Dval, if_neg]
  · rfl
  · intro hx
    simp only [mRef] at hx
    exact absurd hx (by decide)

theorem mRef_F : dia_atGirard mRef regRef = 5 := by
  rw [dia_atGirard]
  have h5 : mRef.dbh * (regRef.reg17_a + regRef.reg17_b * (17.3 / mRef.height) ^ 2) = 5 := by
    simp only [mRef, regRef]
    norm_num
  rw [h5, pyround2_eq_of 500 (by norm_num) (by norm_num)]
  norm_num

theorem segRef_G : realPow ((1:ℝ) - 4.5/90) segRef.butt_r = 361/400 := by
  have hb : (1 : ℝ) - 4.5/90 = 19/20 := by norm_num
  have hr2 : segRef.butt_r = 2 := rfl
  rw [hb, hr2, realPow_two (by norm_num)]
  norm_num

theorem segRef_X : realPow ((1:ℝ) - 4.5/90) segRef.lstem_p = 361/400 := by
  have hb : (1 : ℝ) - 4.5/90 = 19/20 := by norm_num
  have hp2 : segRef.lstem_p = 2 := rfl
  rw [hb, hp2, realPow_two (by norm_num)]
  norm_num

theorem segRef_Y : realPow ((1:ℝ) - 17.3/90) segRef.lstem_p = 528529/810000 := by
  have hb : (1 : ℝ) - 17.3/90 = 727/900 := by norm_num
  have hp2 : segRef.lstem_p = 2 := rfl
  rw [hb, hp2, realPow_two (by norm_num)]
  norm_num

/-- Claim C6 (confirmed): at the exact breakpoints `h = 4.5` and `h = 17.3`,
the strict comparisons make all three section indicators of
`estimate_stemDiameter` equal to 0, so all three section terms are 0 and the
method returns the defined value `round(0**0.5, 2) = 0.0` — no
division-by-zero is raised at these two specific points (the divisors,
hypothesized nonzero here, do not involve `h`). -/
theorem C6_breakpoints (m : StemProfileModel) (s : SegP) (rg : RegP)
    (hseg : m.seg_dict = some s) (hreg : m.reg_dict = some rg)
    (hH : 17.3 < m.height) (hD : Dval m rg ≠ 0)
    (hr : 0 ≤ s.butt_r) (hp : 0 ≤ s.lstem_p)
    (hden1 : 1 - realPow (1 - 4.5 / m.height) s.butt_r ≠ 0)
    (hden2 : realPow (1 - 4.5 / m.height) s.lstem_p -
      realPow (1 - 17.3 / m.height) s.lstem_p ≠ 0)
    (ha : s.ustem_a ≠ 0) :
    dia_id_S 4.5 = 0 ∧ dia_id_B 4.5 = 0 ∧ dia_id_T 4.5 = 0 ∧
    dia_id_S 17.3 = 0 ∧ dia_id_B 17.3 = 0 ∧ dia_id_T 17.3 = 0 ∧
    estimate_stemDiameter m 4.5 = PyRes.val 0 ∧
    estimate_stemDiameter m 17.3 = PyRes.val 0 := by
  have hS45 : dia_id_S 4.5 = 0 := by rw [dia_id_S, if_neg]; norm_num
  have hB45 : dia_id_B 4.5 = 0 := by
    rw [dia_id_B, if_neg]
    intro hx
    exact absurd hx.1 (by norm_num)
  have hT45 : dia_id_T 4.5 = 0 := by rw [dia_id_T, if_neg]; norm_num
  have hS173 : dia_id_S 17.3 = 0 := by rw [dia_id_S, if_neg]; norm_num
  have hB173 : dia_id_B 17.3 = 0 := by
    rw [dia_id_B, if_neg]
    intro hx
    exact absurd hx.2 (by norm_num)
  have hT173 : dia_id_T 17.3 = 0 := by rw [dia_id_T, if_neg]; norm_num
  have hval : ∀ h : ℝ, dia_id_S h = 0 → dia_id_B h = 0 → dia_id_T h = 0 →
      h ≤ m.height → estimate_stemDiameter m h = PyRes.val 0 := by
    intro h h0S h0B h0T hhH
    have hd1 : dia_d1 s (Dval m rg) m.height h = 0 := by rw [dia_d1, h0S]; ring
    have hd2 : dia_d2 s (Dval m rg) m.height (dia_atGirard m rg) h = 0 := by
      rw [dia_d2, h0B]; ring
    have hd3 : dia_d3 s m.height (dia_atGirard m rg) h = 0 := by
      rw [dia_d3, h0T]; ring
    have hsum0 : dia_d1 s (Dval m rg) m.height h +
        dia_d2 s (Dval m rg) m.height (dia_atGirard m rg) h +
        dia_d3 s m.height (dia_atGirard m rg) h = 0 := by
      rw [hd1, hd2, hd3]; ring
    rw [estimate_stemDiameter_val hseg hreg
      (not_diaCrash_of hH hD hr hp hden1 hden2 ha)
      (not_diaComplex_of hH hhH) (by rw [hsum0]), hsum0, Real.sqrt_zero,
      pyround2_eq_of 0 (by norm_num) (by norm_num)]
    norm_num
  exact ⟨hS45, hB45, hT45, hS173, hB173, hT173,
    hval 4.5 hS45 hB45 hT45 (by linarith),
    hval 17.3 hS173 hB173 hT173 (by linarith)⟩

/-- Witness for C6_breakpoints at the concrete reference-style model. -/
theorem C6_witness :
    dia_id_S 4.5 = 0 ∧ dia_id_B 4.5 = 0 ∧ dia_id_T 4.5 = 0 ∧
    dia_id_S 17.3 = 0 ∧ dia_id_B 17.3 = 0 ∧ dia_id_T 17.3 = 0 ∧
    estimate_stemDiameter mRef 4.5 = PyRes.val 0 ∧
    estimate_stemDiameter mRef 17.3 = PyRes.val 0 :=
  C6_breakpoints mRef segRef regRef rfl rfl
    (by rw [mRef_height]; norm_num)
    (by rw [mRef_Dval]; norm_num)
    (by norm_num [segRef])
    (by norm_num [segRef])
    (by rw [mRef_height, segRef_G]; norm_num)
    (by rw [mRef_height, segRef_X, segRef_Y]; norm_num)
    (by norm_num [segRef])

/-- Claim C10 (confirmed): on a resolved model whose `butt_r` (or `lstem_p`)
is not integer-valued, querying a height strictly above the total height
makes `(1 - h/H)**r` (resp. `**p`) a complex value — negative base,
fractional exponent — so the final `round` raises `TypeError`, which the
method catches and swallows: `estimate_stemDiameter` returns `None`
(no numeric result, no exception escapes). -/
theorem C10_above_height_none (m : StemProfileModel) (s : SegP) (rg : RegP)
    (h : ℝ) (hseg : m.seg_dict = some s) (hreg : m.reg_dict = some rg)
    (hH : 17.3 < m.height) (hh : m.height < h)
    (hfrac : ¬ IsIntVal s.butt_r ∨ ¬ IsIntVal s.lstem_p)
    (hD : Dval m rg ≠ 0) (hr : 0 ≤ s.butt_r) (hp : 0 ≤ s.lstem_p)
    (hden1 : 1 - realPow (1 - 4.5 / m.height) s.butt_r ≠ 0)
    (hden2 : realPow (1 - 4.5 / m.height) s.lstem_p -
      realPow (1 - 17.3 / m.height) s.lstem_p ≠ 0)
    (ha : s.ustem_a ≠ 0) :
    estimate_stemDiameter m h = PyRes.noneV := by
  refine estimate_stemDiameter_noneV hseg hreg
    (not_diaCrash_of hH hD hr hp hden1 hden2 ha) (Or.inl ?_)
  have hH0 : 0 < m.height := by linarith
  have hbase : 1 - h / m.height < 0 := by
    have : 1 < h / m.height := (one_lt_div hH0).mpr hh
    linarith
  rcases hfrac with hfr | hfp
  · exact Or.inl ⟨hbase, hfr⟩
  · exact Or.inr (Or.inr (Or.inr (Or.inl ⟨hbase, hfp⟩)))

/-- Segment coefficients with a non-integer butt exponent `r = 5/2`. -/
noncomputable def segC10 : SegP := ⟨5/2, 1, 0, 2, 1/2, 1/2⟩

/-- A resolved outside-bark model with the fractional-exponent
coefficients. -/
noncomputable def mC10 : StemProfileModel :=
  ⟨"deep south", "loblolly pine", 10, 90, 0, some regRef, some segC10, some 0.022⟩

/-- Witness for C10_above_height_none: height 100 ft queried on a 90 ft
model with `butt_r = 5/2`. -/
theorem C10_witness : estimate_stemDiameter mC10 100 = PyRes.noneV := by
  have hG10 : realPow ((1:ℝ) - 4.5/90) segC10.butt_r < 1 := by
    have hb : (1 : ℝ) - 4.5/90 = 19/20 := by norm_num
    rw [hb, realPow_of_nonneg (by norm_num)]
    exact Real.rpow_lt_one (by norm_num) (by norm_num) (by norm_num [segC10])
  have hX10 : realPow ((1:ℝ) - 4.5/90) segC10.lstem_p = 361/400 := by
    have hb : (1 : ℝ) - 4.5/90 = 19/20 := by norm_num
    have hp2 : segC10.lstem_p = 2 := rfl
    rw [hb, hp2, realPow_two (by norm_num)]
    norm_num
  have hY10 : realPow ((1:ℝ) - 17.3/90) segC10.lstem_p = 528529/810000 := by
    have hb : (1 : ℝ) - 17.3/90 = 727/900 := by norm_num
    have hp2 : segC10.lstem_p = 2 := rfl
    rw [hb, hp2, realPow_two (by norm_num)]
    norm_num
  have hDv : Dval mC10 regRef = 10 := by
    rw [Dval, if_neg]
    · rfl
    · intro hx
      simp only [mC10] at hx
      exact absurd hx (by decide)
  have hHt : mC10.height = 90 := rfl
  exact C10_above_height_none mC10 segC10 regRef 100 rfl rfl
    (by rw [hHt]; norm_num)
    (by rw [hHt]; norm_num)
    (Or.inl (by simp only [segC10]; exact not_isIntVal_five_half))
    (by rw [hDv]; norm_num)
    (by norm_num [segC10])
    (by norm_num [segC10])
    (by rw [hHt]; intro hz; rw [sub_eq_zero] at hz; exact absurd hz.symm (ne_of_lt hG10))
    (by rw [hHt, hX10, hY10]; norm_num)
    (by norm_num [segC10])

/-- Segment coefficients for which the height-from-diameter quadratic has a
negative discriminant at suitable diameters (`b = -2`, `a = 2`; type-valid
floats — the spec's data model places no range constraint on them). -/
noncomputable def segC4 : SegP := ⟨2, 1, 0, 2, -2, 2⟩

/-- A resolved outside-bark model with those coefficients. -/
noncomputable def mC4 : StemProfileModel :=
  ⟨"deep south", "loblolly pine", 10, 90, 0, some regRef, some segC4, some 0.022⟩

theorem mC4_F : dia_atGirard mC4 regRef = 5 := by
  rw [dia_atGirard]
  have h5 : mC4.dbh * (regRef.reg17_a + regRef.reg17_b * (17.3 / mC4.height) ^ 2) = 5 := by
    simp only [mC4, regRef]
    norm_num
  rw [h5, pyround2_eq_of 500 (by norm_num) (by norm_num)]
  norm_num

theorem mC4_Dval : Dval mC4 regRef = 10 := by
  rw [Dval, if_neg]
  · rfl
  · intro hx
    simp only [mC4] at hx
    exact absurd hx (by decide)

theorem mC4_idM : hgt_id_M segC4 5 (15/2) = 1 := by
  rw [hgt_id_M, if_pos]
  simp only [segC4]
  norm_num

theorem mC4_Qa : hgt_Qa segC4 5 (15/2) = -5/4 := by
  rw [hgt_Qa, mC4_idM]
  simp only [segC4]
  norm_num

theorem mC4_disc : hgt_disc segC4 5 (15/2) = -21/4 := by
  have hQb : hgt_Qb segC4 5 (15/2) = 1 := by
    rw [hgt_Qb, mC4_idM]
    simp only [segC4]
    norm_num
  have hQc : hgt_Qc segC4 5 (15/2) = -5/4 := by
    rw [hgt_Qc, mC4_idM]
    simp only [segC4]
    norm_num
  rw [hgt_disc, mC4_Qa, hQb, hQc]
  norm_num

theorem mC4_nocrash : ¬ hgtCrash segC4 10 90 5 (15/2) := by
  have hG : realPow ((1:ℝ) - 4.5/90) segC4.butt_r = 361/400 := by
    have hb : (1 : ℝ) - 4.5/90 = 19/20 := by norm_num
    have hr2 : segC4.butt_r = 2 := rfl
    rw [hb, hr2, realPow_two (by norm_num)]
    norm_num
  have hX : Xv segC4 90 = 361/400 := by
    rw [Xv]
    have hb : (1 : ℝ) - 4.5/90 = 19/20 := by norm_num
    have hp2 : segC4.lstem_p = 2 := rfl
    rw [hb, hp2, realPow_two (by norm_num)]
    norm_num
  have hY : Yv segC4 90 = 528529/810000 := by
    rw [Yv]
    have hb : (1 : ℝ) - 17.3/90 = 727/900 := by norm_num
    have hp2 : segC4.lstem_p = 2 := rfl
    rw [hb, hp2, realPow_two (by norm_num)]
    norm_num
  exact not_hgtCrash_of (by norm_num) (by norm_num)
    (by norm_num [segC4]) (by norm_num [segC4])
    (by rw [hG]; norm_num) (by rw [hX, hY]; norm_num)
    (by norm_num [segC4]) (by norm_num)
    (by norm_num [segC4]) (by norm_num [segC4])
    (by norm_num) (by norm_num [segC4])
    (by rw [mC4_Qa]; norm_num)

/-- Claim C4 (corrected), counterexample: on a resolved model and diameter
query with negative discriminant (`disc = -21/4`), `estimate_stemHeight`
does not surface any `DomainError`: `(disc)**0.5` is complex, `round` raises
`TypeError`, the handler swallows it, and the method silently returns `None`
— a non-error result. -/
theorem C4_counterexample :
    hgt_disc segC4 5 (15/2) < 0 ∧
    estimate_stemHeight mC4 (15/2) = PyRes.noneV := by
  constructor
  · rw [mC4_disc]; norm_num
  · have hHt : mC4.height = 90 := rfl
    refine estimate_stemHeight_noneV rfl rfl ?_ ?_
    · rw [mC4_Dval, mC4_F, hHt]
      exact mC4_nocrash
    · rw [mC4_F, hHt]
      refine Or.inr (Or.inr (Or.inr ?_))
      rw [mC4_disc]
      norm_num

/-- Claim C3 (code_bug), evaluation at the failing input: the source height
formula reads `(...)**1 / r`, which Python parses as `((...)**1)/r`, not the
inverse `(...)**(1/r)` of the butt-section profile.  On a reference-style
resolved model, `estimate_stemDiameter(2) = 12.45`, but
`estimate_stemHeight(12.45) = 46.97` — nowhere near the original height 2,
so the claimed round-trip property fails in the butt section. -/
theorem C3_roundtrip_eval :
    estimate_stemDiameter mRef 2 = PyRes.val 12.45 ∧
    estimate_stemHeight mRef 12.45 = PyRes.val 46.97 ∧
    (46.97 : ℝ) ≠ 2 := by
  have hHt : mRef.height = 90 := rfl
  have hr2 : segRef.butt_r = 2 := rfl
  have hp2 : segRef.lstem_p = 2 := rfl
  have hnc : ¬ diaCrash segRef (Dval mRef regRef) mRef.height 2 := by
    rw [mRef_Dval, hHt]
    exact not_diaCrash_of (by norm_num) (by norm_num)
      (by norm_num [segRef]) (by norm_num [segRef])
      (by rw [segRef_G]; norm_num)
      (by rw [segRef_X, segRef_Y]; norm_num)
      (by norm_num [segRef])
  have hcx : ¬ diaComplex segRef mRef.height 2 := by
    rw [hHt]
    exact not_diaComplex_of (by norm_num) (by norm_num)
  have hd1 : dia_d1 segRef 10 90 2 = 489400/3159 := by
    have hidS2 : dia_id_S 2 = 1 := by rw [dia_id_S, if_pos]; norm_num
    have hP2 : realPow ((1:ℝ) - 2/90) segRef.butt_r = 1936/2025 := by
      have hb : (1 : ℝ) - 2/90 = 44/45 := by norm_num
      rw [hb, hr2, realPow_two (by norm_num)]
      norm_num
    rw [dia_d1, hidS2, hP2, segRef_G]
    norm_num [segRef]
  have hd2 : dia_d2 segRef 10 90 5 2 = 0 := by
    have hidB2 : dia_id_B 2 = 0 := by
      rw [dia_id_B, if_neg]
      intro hx
      exact absurd hx.1 (by norm_num)
    rw [dia_d2, hidB2]
    ring
  have hd3 : dia_d3 segRef 90 5 2 = 0 := by
    have hidT2 : dia_id_T 2 = 0 := by rw [dia_id_T, if_neg]; norm_num
    rw [dia_d3, hidT2]
    ring
  have hsum : dia_d1 segRef (Dval mRef regRef) mRef.height 2 +
      dia_d2 segRef (Dval mRef regRef) mRef.height (dia_atGirard mRef regRef) 2 +
      dia_d3 segRef mRef.height (dia_atGirard mRef regRef) 2 = 489400/3159 := by
    rw [mRef_Dval, hHt, mRef_F, hd1, hd2, hd3]
    norm_num
  have hfwd : estimate_stemDiameter mRef 2 = PyRes.val 12.45 := by
    rw [estimate_stemDiameter_val rfl rfl hnc hcx (by rw [hsum]; norm_num), hsum]
    have hlo : (1244.5 : ℝ) < Real.sqrt (489400/3159) * 100 := by
      have h1 : (12.445 : ℝ) < Real.sqrt (489400/3159) := by
        rw [show (12.445 : ℝ) = 12.445 from rfl]
        have := (Real.lt_sqrt (by norm_num : (0:ℝ) ≤ 12.445)).mpr
          (by norm_num : (12.445:ℝ) ^ 2 < 489400/3159)
        exact this
      linarith
    have hhi : Real.sqrt (489400/3159) * 100 < 1245.5 := by
      have h1 : Real.sqrt (489400/3159) < 12.455 := by
        have := (Real.sqrt_lt' (by norm_num : (0:ℝ) < 12.455)).mpr
          (by norm_num : (489400/3159 : ℝ) < 12.455 ^ 2)
        exact this
      linarith
    rw [pyround2_eq_of 1245 (by linarith) (by linarith)]
    norm_num
  have hW : Wv segRef 10 90 = 400/39 := by
    rw [Wv, Gv, segRef_G]
    norm_num [segRef]
  have hidS : hgt_id_S 10 12.45 = 1 := by
    rw [hgt_id_S, if_pos]
    norm_num
  have hidB : hgt_id_B 10 5 12.45 = 0 := by
    rw [hgt_id_B, if_neg]
    intro hx
    exact absurd hx.1 (by norm_num)
  have hidT : hgt_id_T 5 12.45 = 0 := by
    rw [hgt_id_T, if_neg]
    norm_num
  have hidM : hgt_id_M segRef 5 12.45 = 1 := by
    rw [hgt_id_M, if_pos]
    simp only [segRef]
    norm_num
  have hQa : hgt_Qa segRef 5 12.45 = 5/2 := by
    rw [hgt_Qa, hidM]
    simp only [segRef]
    norm_num
  have hdisc : hgt_disc segRef 5 12.45 = 61001/1000 := by
    have hQb : hgt_Qb segRef 5 12.45 = -3 := by
      rw [hgt_Qb, hidM]
      simp only [segRef]
      norm_num
    have hQc : hgt_Qc segRef 5 12.45 = -52001/10000 := by
      rw [hgt_Qc, hidM]
      simp only [segRef]
      norm_num
    rw [hgt_disc, hQa, hQb, hQc]
    norm_num
  have hncH : ¬ hgtCrash segRef (Dval mRef regRef) mRef.height
      (dia_atGirard mRef regRef) 12.45 := by
    rw [mRef_Dval, hHt, mRef_F]
    exact not_hgtCrash_of (by norm_num) (by norm_num)
      (by norm_num [segRef]) (by norm_num [segRef])
      (by rw [segRef_G]; norm_num)
      (by rw [Xv, Yv, segRef_X, segRef_Y]; norm_num)
      (by norm_num [segRef]) (by norm_num)
      (by norm_num [segRef]) (by norm_num [segRef])
      (by norm_num) (by norm_num [segRef])
      (by rw [hQa]; norm_num)
  have hcxH : ¬ hgtComplex segRef mRef.height (dia_atGirard mRef regRef) 12.45 := by
    rw [hHt, mRef_F]
    exact not_hgtComplex_of (by norm_num) (by rw [hdisc]; norm_num)
  have hh1 : hgt_h1 segRef 10 90 12.45 = 150317649/3200000 := by
    rw [hgt_h1, hidS, hW, Gv, segRef_G]
    norm_num [segRef]
  have hh2 : hgt_h2 segRef 10 90 5 12.45 = 0 := by
    rw [hgt_h2, hidB]
    ring
  have hh3 : hgt_h3 segRef 90 5 12.45 = 0 := by
    rw [hgt_h3, hidT]
    ring
  have hback : estimate_stemHeight mRef 12.45 = PyRes.val 46.97 := by
    rw [estimate_stemHeight_val rfl rfl hncH hcxH, mRef_Dval, hHt, mRef_F,
      hh1, hh2, hh3]
    have hx : (150317649/3200000 : ℝ) + 0 + 0 = 150317649/3200000 := by ring
    rw [hx, pyround2_eq_of 4697 (by norm_num) (by norm_num)]
    norm_num
  exact ⟨hfwd, hback, by norm_num⟩

/-- A reference-style resolved model with weight factor 1 ton per cubic
foot (type-valid; the weight table is spec-modelled). -/
noncomputable def mC1 : StemProfileModel :=
  ⟨"deep south", "loblolly pine", 10, 90, 0, some regRef, some segRef, some 1⟩

theorem mC1_height : mC1.height = 90 := rfl

theorem mC1_Dval : Dval mC1 regRef = 10 := by
  rw [Dval, if_neg]
  · rfl
  · intro hx
    simp only [mC1] at hx
    exact absurd hx (by decide)

theorem mC1_F : dia_atGirard mC1 regRef = 5 := by
  rw [dia_atGirard]
  have h5 : mC1.dbh * (regRef.reg17_a + regRef.reg17_b * (17.3 / mC1.height) ^ 2) = 5 := by
    simp only [mC1, regRef]
    norm_num
  rw [h5, pyround2_eq_of 500 (by norm_num) (by norm_num)]
  norm_num

theorem segRef_Gv : Gv segRef 90 = 361/400 := by
  rw [Gv, segRef_G]

theorem segRef_Wv : Wv segRef 10 90 = 400/39 := by
  rw [Wv, segRef_Gv]
  norm_num [segRef]

theorem segRef_v1_04 : vol_v1 segRef 10 90 0 4 = 5879200/9477 := by
  have hi1 : vol_i1 0 = 1 := by rw [vol_i1, if_pos]; norm_num
  have hL10 : vol_L1 0 = 0 := by rw [vol_L1]; exact max_self 0
  have hU14 : vol_U1 4 = 4 := by rw [vol_U1]; exact min_eq_left (by norm_num)
  have hP0 : realPow (1 - (0:ℝ)/90) segRef.butt_r = 1 := by
    have hb : (1:ℝ) - 0/90 = 1 := by norm_num
    have hr2 : segRef.butt_r = 2 := rfl
    rw [hb, hr2, realPow_two (by norm_num)]
    norm_num
  have hP4 : realPow (1 - (4:ℝ)/90) segRef.butt_r = 1849/2025 := by
    have hb : (1:ℝ) - 4/90 = 43/45 := by norm_num
    have hr2 : segRef.butt_r = 2 := rfl
    rw [hb, hr2, realPow_two (by norm_num)]
    norm_num
  rw [vol_v1, hi1, hL10, hU14, hP0, hP4, segRef_Gv, segRef_Wv]
  norm_num [segRef]

theorem segRef_v2_04 : vol_v2 segRef 10 90 5 0 4 = 0 := by
  have hi3 : vol_i3 4 = 0 := by rw [vol_i3, if_neg]; norm_num
  rw [vol_v2, hi3]
  ring

theorem segRef_v3_04 : vol_v3 segRef 90 5 0 4 = 0 := by
  have hi4 : vol_i4 4 = 0 := by rw [vol_i4, if_neg]; norm_num
  rw [vol_v3, hi4]
  ring

theorem mC1_nocrash : ¬ volCrash segRef 10 90 0 4 :=
  not_volCrash_of (by norm_num) (by norm_num)
    (by norm_num [segRef]) (by norm_num [segRef])
    (by rw [segRef_G]; norm_num)
    (by rw [Xv, Yv, segRef_X, segRef_Y]; norm_num)
    (by norm_num [segRef])

/-- Claim C1 (corrected), counterexample: `estimate_volume` does not return
the claimed `round(0.005454154*(v1+v2+v3), 0)`.  On a resolved model with
`tons_per_cuft = 1`, the spec formula gives `3` while `estimate_volume`
returns `3.38` = `round(0.005454154*(v1+v2+v3) * tons_per_cuft, 2)` — the
weight rounded to two decimals, computed by the single combined operation
(there is no separate weight operation in the source). -/
theorem C1_counterexample :
    estimate_volume mC1 0 4 = PyRes.val 3.38 ∧
    spec_estimateVolume segRef (Dval mC1 regRef) mC1.height (dia_atGirard mC1 regRef) 0 4 = 3 ∧
    (3.38 : ℝ) ≠ 3 := by
  have hsum : vol_v1 segRef (Dval mC1 regRef) mC1.height 0 4 +
      vol_v2 segRef (Dval mC1 regRef) mC1.height (dia_atGirard mC1 regRef) 0 4 +
      vol_v3 segRef mC1.height (dia_atGirard mC1 regRef) 0 4 = 5879200/9477 := by
    rw [mC1_Dval, mC1_height, mC1_F, segRef_v1_04, segRef_v2_04, segRef_v3_04]
    norm_num
  refine ⟨?_, ?_, by norm_num⟩
  · have hnc : ¬ volCrash segRef (Dval mC1 regRef) mC1.height 0 4 := by
      rw [mC1_Dval, mC1_height]
      exact mC1_nocrash
    have hcx : ¬ volComplex segRef mC1.height 0 4 := by
      rw [mC1_height]
      exact not_volComplex_of (by norm_num) (by norm_num)
    rw [estimate_volume_val rfl rfl rfl hnc hcx, hsum]
    rw [show (0.005454154 : ℝ) * (5879200/9477) * 1 = 0.005454154 * 5879200/9477 by ring]
    rw [pyround2_eq_of 338 (by norm_num) (by norm_num)]
    norm_num
  · rw [spec_estimateVolume, hsum, pyround0, pyRoundInt_eq_of 3 (by norm_num) (by norm_num)]
    norm_num

/-- Claim C1, amended: `estimate_volume(lower, upper)` returns
`round(0.005454154*(v1+v2+v3) * tons_per_cuft, 2)` — the weight in tons
rounded to two decimals; the plain volume `round(0.005454154*(v1+v2+v3), 0)`
is never produced, and no separate weight operation exists. -/
theorem C1_amended (m : StemProfileModel) (s : SegP) (rg : RegP) (t L U : ℝ)
    (hseg : m.seg_dict = some s) (hreg : m.reg_dict = some rg)
    (hwt : m.wt_dict = some t)
    (hnc : ¬ volCrash s (Dval m rg) m.height L U)
    (hcx : ¬ volComplex s m.height L U) :
    estimate_volume m L U = PyRes.val (pyround2 (0.005454154 *
      (vol_v1 s (Dval m rg) m.height L U +
       vol_v2 s (Dval m rg) m.height (dia_atGirard m rg) L U +
       vol_v3 s m.height (dia_atGirard m rg) L U) * t)) :=
  estimate_volume_val hseg hreg hwt hnc hcx

/-- Witness for C1_amended at the concrete resolved model. -/
theorem C1_witness :
    estimate_volume mC1 0 4 = PyRes.val (pyround2 (0.005454154 *
      (vol_v1 segRef (Dval mC1 regRef) mC1.height 0 4 +
       vol_v2 segRef (Dval mC1 regRef) mC1.height (dia_atGirard mC1 regRef) 0 4 +
       vol_v3 segRef mC1.height (dia_atGirard mC1 regRef) 0 4) * 1)) :=
  C1_amended mC1 segRef regRef 1 0 4 rfl rfl rfl
    (by rw [mC1_Dval, mC1_height]; exact mC1_nocrash)
    (by rw [mC1_height]; exact not_volComplex_of (by norm_num) (by norm_num))

/-- Claim C4, amended: when the discriminant `Qb² - 4·Qa·Qc` is negative
(and no divisor is zero), `estimate_stemHeight` returns `None` silently —
the complex square root makes the final `round` raise `TypeError`, which
the method catches; no `DomainError` or any other failure is surfaced. -/
theorem C4_amended (m : StemProfileModel) (s : SegP) (rg : RegP) (d : ℝ)
    (hseg : m.seg_dict = some s) (hreg : m.reg_dict = some rg)
    (hnc : ¬ hgtCrash s (Dval m rg) m.height (dia_atGirard m rg) d)
    (hdisc : hgt_disc s (dia_atGirard m rg) d < 0) :
    estimate_stemHeight m d = PyRes.noneV :=
  estimate_stemHeight_noneV hseg hreg hnc (Or.inr (Or.inr (Or.inr hdisc)))

/-- Witness for C4_amended at the concrete model with negative
discriminant. -/
theorem C4_witness : estimate_stemHeight mC4 (31/4) = PyRes.noneV := by
  have hidM : hgt_id_M segC4 5 (31/4) = 1 := by
    rw [hgt_id_M, if_pos]
    simp only [segC4]
    norm_num
  have hQa : hgt_Qa segC4 5 (31/4) = -5/4 := by
    rw [hgt_Qa, hidM]
    simp only [segC4]
    norm_num
  have hdisc : hgt_disc segC4 5 (31/4) = -481/80 := by
    have hQb : hgt_Qb segC4 5 (31/4) = 1 := by
      rw [hgt_Qb, hidM]
      simp only [segC4]
      norm_num
    have hQc : hgt_Qc segC4 5 (31/4) = -561/400 := by
      rw [hgt_Qc, hidM]
      simp only [segC4]
      norm_num
    rw [hgt_disc, hQa, hQb, hQc]
    norm_num
  have hHt : mC4.height = 90 := rfl
  refine C4_amended mC4 segC4 regRef (31/4) rfl rfl ?_ ?_
  · rw [mC4_Dval, mC4_F, hHt]
    have hG : realPow ((1:ℝ) - 4.5/90) segC4.butt_r = 361/400 := by
      have hb : (1 : ℝ) - 4.5/90 = 19/20 := by norm_num
      have hr2 : segC4.butt_r = 2 := rfl
      rw [hb, hr2, realPow_two (by norm_num)]
      norm_num
    have hX : Xv segC4 90 = 361/400 := by
      rw [Xv]
      have hb : (1 : ℝ) - 4.5/90 = 19/20 := by norm_num
      have hp2 : segC4.lstem_p = 2 := rfl
      rw [hb, hp2, realPow_two (by norm_num)]
      norm_num
    have hY : Yv segC4 90 = 528529/810000 := by
      rw [Yv]
      have hb : (1 : ℝ) - 17.3/90 = 727/900 := by norm_num
      have hp2 : segC4.lstem_p = 2 := rfl
      rw [hb, hp2, realPow_two (by norm_num)]
      norm_num
    exact not_hgtCrash_of (by norm_num) (by norm_num)
      (by norm_num [segC4]) (by norm_num [segC4])
      (by rw [hG]; norm_num) (by rw [hX, hY]; norm_num)
      (by norm_num [segC4]) (by norm_num)
      (by norm_num [segC4]) (by norm_num [segC4])
      (by norm_num) (by norm_num [segC4])
      (by rw [hQa]; norm_num)
  · rw [mC4_F]
    rw [hdisc]
    norm_num

/-- Claim C9, amended: the volume estimate is monotonically non-decreasing
in `upper` for fixed `lower` — provided the resolved coefficients are
physically sane: positive exponents `r`, `p`, `0 ≤ b ≤ 1`, `a > 0`,
`c + e/D³ ≥ 0`, `F² ≤ D²`, and a positive weight factor.  (Without these
restrictions the claim is false; see the counterexample.)  Both calls
return plain values and the first is at most the second. -/
theorem C9_amended (m : StemProfileModel) (s : SegP) (rg : RegP) (t L U V : ℝ)
    (hseg : m.seg_dict = some s) (hreg : m.reg_dict = some rg)
    (hwt : m.wt_dict = some t)
    (hH : 17.3 < m.height) (hD : 0 < Dval m rg)
    (hr : 0 < s.butt_r) (hp : 0 < s.lstem_p)
    (hb0 : 0 ≤ s.ustem_b) (hb1 : s.ustem_b ≤ 1) (ha : 0 < s.ustem_a)
    (hcnn : 0 ≤ s.butt_c + s.butt_e / (Dval m rg) ^ 3)
    (hDF : (dia_atGirard m rg) ^ 2 ≤ (Dval m rg) ^ 2)
    (ht : 0 < t)
    (hL : 0 ≤ L) (hLU : L ≤ U) (hUV : U ≤ V) (hVH : V ≤ m.height) :
    estimate_volume m L U = PyRes.val (pyround2 (0.005454154 *
      (vol_v1 s (Dval m rg) m.height L U +
       vol_v2 s (Dval m rg) m.height (dia_atGirard m rg) L U +
       vol_v3 s m.height (dia_atGirard m rg) L U) * t)) ∧
    estimate_volume m L V = PyRes.val (pyround2 (0.005454154 *
      (vol_v1 s (Dval m rg) m.height L V +
       vol_v2 s (Dval m rg) m.height (dia_atGirard m rg) L V +
       vol_v3 s m.height (dia_atGirard m rg) L V) * t)) ∧
    pyround2 (0.005454154 *
      (vol_v1 s (Dval m rg) m.height L U +
       vol_v2 s (Dval m rg) m.height (dia_atGirard m rg) L U +
       vol_v3 s m.height (dia_atGirard m rg) L U) * t) ≤
    pyround2 (0.005454154 *
      (vol_v1 s (Dval m rg) m.height L V +
       vol_v2 s (Dval m rg) m.height (dia_atGirard m rg) L V +
       vol_v3 s m.height (dia_atGirard m rg) L V) * t) := by
  have hGlt := Gv_lt_one hH hr
  have hden1 : 1 - realPow (1 - 4.5 / m.height) s.butt_r ≠ 0 := by
    show 1 - Gv s m.height ≠ 0
    linarith
  have hden2 : Xv s m.height - Yv s m.height ≠ 0 := by
    linarith [Yv_lt_Xv hH hp]
  have hncU : ¬ volCrash s (Dval m rg) m.height L U :=
    not_volCrash_of hH (ne_of_gt hD) hr.le hp.le hden1 hden2 (ne_of_gt ha)
  have hncV : ¬ volCrash s (Dval m rg) m.height L V :=
    not_volCrash_of hH (ne_of_gt hD) hr.le hp.le hden1 hden2 (ne_of_gt ha)
  have hLH : L ≤ m.height := le_trans hLU (le_trans hUV hVH)
  have hcxU : ¬ volComplex s m.height L U := not_volComplex_of hH hLH
  have hcxV : ¬ volComplex s m.height L V := not_volComplex_of hH hLH
  have hWnn : 0 ≤ Wv s (Dval m rg) m.height := by
    rw [Wv]
    apply div_nonneg hcnn
    linarith
  have h1 := vol_v1_mono hH hr hWnn hL hLU hUV hVH
  have h2 := vol_v2_mono hH hp hDF hLU hUV hVH
  have h3 : vol_v3 s m.height (dia_atGirard m rg) L U ≤
      vol_v3 s m.height (dia_atGirard m rg) L V :=
    vol_v3_mono hH hb0 hb1 ha hLU hUV hVH
  have hsum : vol_v1 s (Dval m rg) m.height L U +
      vol_v2 s (Dval m rg) m.height (dia_atGirard m rg) L U +
      vol_v3 s m.height (dia_atGirard m rg) L U ≤
      vol_v1 s (Dval m rg) m.height L V +
      vol_v2 s (Dval m rg) m.height (dia_atGirard m rg) L V +
      vol_v3 s m.height (dia_atGirard m rg) L V := by
    linarith
  have hscaled := mul_le_mul_of_nonneg_right
    (mul_le_mul_of_nonneg_left hsum (by norm_num : (0:ℝ) ≤ 0.005454154)) ht.le
  exact ⟨estimate_volume_val hseg hreg hwt hncU hcxU,
         estimate_volume_val hseg hreg hwt hncV hcxV,
         pyround2_mono hscaled⟩

/-- Witness for C9_amended at the concrete sane resolved model
(lower 1, uppers 2 ≤ 3). -/
theorem C9_witness :
    pyround2 (0.005454154 *
      (vol_v1 segRef (Dval mC1 regRef) mC1.height 1 2 +
       vol_v2 segRef (Dval mC1 regRef) mC1.height (dia_atGirard mC1 regRef) 1 2 +
       vol_v3 segRef mC1.height (dia_atGirard mC1 regRef) 1 2) * 1) ≤
    pyround2 (0.005454154 *
      (vol_v1 segRef (Dval mC1 regRef) mC1.height 1 3 +
       vol_v2 segRef (Dval mC1 regRef) mC1.height (dia_atGirard mC1 regRef) 1 3 +
       vol_v3 segRef mC1.height (dia_atGirard mC1 regRef) 1 3) * 1) :=
  (C9_amended mC1 segRef regRef 1 1 2 3 rfl rfl rfl
    (by rw [mC1_height]; norm_num)
    (by rw [mC1_Dval]; norm_num)
    (by norm_num [segRef]) (by norm_num [segRef])
    (by norm_num [segRef]) (by norm_num [segRef]) (by norm_num [segRef])
    (by rw [mC1_Dval]; norm_num [segRef])
    (by rw [mC1_F, mC1_Dval]; norm_num)
    (by norm_num)
    (by norm_num) (by norm_num) (by norm_num)
    (by rw [mC1_height]; norm_num)).2.2

/-- Segment coefficients with a hugely negative butt shape `c = -100`
(a type-valid float; the spec's data model places no range constraint). -/
noncomputable def segC9 : SegP := ⟨2, -100, 0, 2, 1/2, 1/2⟩

/-- A resolved outside-bark model with those coefficients and weight
factor 1. -/
noncomputable def mC9 : StemProfileModel :=
  ⟨"deep south", "loblolly pine", 10, 90, 0, some regRef, some segC9, some 1⟩

theorem mC9_height : mC9.height = 90 := rfl

theorem mC9_Dval : Dval mC9 regRef = 10 := by
  rw [Dval, if_neg]
  · rfl
  · intro hx
    simp only [mC9] at hx
    exact absurd hx (by decide)

theorem mC9_F : dia_atGirard mC9 regRef = 5 := by
  rw [dia_atGirard]
  have h5 : mC9.dbh * (regRef.reg17_a + regRef.reg17_b * (17.3 / mC9.height) ^ 2) = 5 := by
    simp only [mC9, regRef]
    norm_num
  rw [h5, pyround2_eq_of 500 (by norm_num) (by norm_num)]
  norm_num

theorem segC9_G : realPow ((1:ℝ) - 4.5/90) segC9.butt_r = 361/400 := by
  have hb : (1 : ℝ) - 4.5/90 = 19/20 := by norm_num
  have hr2 : segC9.butt_r = 2 := rfl
  rw [hb, hr2, realPow_two (by norm_num)]
  norm_num

theorem segC9_Gv : Gv segC9 90 = 361/400 := by
  rw [Gv, segC9_G]

theorem segC9_Wv : Wv segC9 10 90 = -40000/39 := by
  rw [Wv, segC9_Gv]
  norm_num [segC9]

theorem mC9_nocrash (U : ℝ) : ¬ volCrash segC9 10 90 0 U := by
  have hX : Xv segC9 90 = 361/400 := by
    rw [Xv]
    have hb : (1 : ℝ) - 4.5/90 = 19/20 := by norm_num
    have hp2 : segC9.lstem_p = 2 := rfl
    rw [hb, hp2, realPow_two (by norm_num)]
    norm_num
  have hY : Yv segC9 90 = 528529/810000 := by
    rw [Yv]
    have hb : (1 : ℝ) - 17.3/90 = 727/900 := by norm_num
    have hp2 : segC9.lstem_p = 2 := rfl
    rw [hb, hp2, realPow_two (by norm_num)]
    norm_num
  exact not_volCrash_of (by norm_num) (by norm_num)
    (by norm_num [segC9]) (by norm_num [segC9])
    (by rw [segC9_G]; norm_num)
    (by rw [hX, hY]; norm_num)
    (by norm_num [segC9])

theorem segC9_v1_01 : vol_v1 segC9 10 90 0 1 = -83062300/9477 := by
  have hi1 : vol_i1 0 = 1 := by rw [vol_i1, if_pos]; norm_num
  have hL10 : vol_L1 0 = 0 := by rw [vol_L1]; exact max_self 0
  have hU11 : vol_U1 1 = 1 := by rw [vol_U1]; exact min_eq_left (by norm_num)
  have hP0 : realPow (1 - (0:ℝ)/90) segC9.butt_r = 1 := by
    have hb : (1:ℝ) - 0/90 = 1 := by norm_num
    have hr2 : segC9.butt_r = 2 := rfl
    rw [hb, hr2, realPow_two (by norm_num)]
    norm_num
  have hP1 : realPow (1 - (1:ℝ)/90) segC9.butt_r = 7921/8100 := by
    have hb : (1:ℝ) - 1/90 = 89/90 := by norm_num
    have hr2 : segC9.butt_r = 2 := rfl
    rw [hb, hr2, realPow_two (by norm_num)]
    norm_num
  rw [vol_v1, hi1, hL10, hU11, hP0, hP1, segC9_Gv, segC9_Wv]
  norm_num [segC9]

theorem segC9_v1_02 : vol_v1 segC9 10 90 0 2 = -144764600/9477 := by
  have hi1 : vol_i1 0 = 1 := by rw [vol_i1, if_pos]; norm_num
  have hL10 : vol_L1 0 = 0 := by rw [vol_L1]; exact max_self 0
  have hU12 : vol_U1 2 = 2 := by rw [vol_U1]; exact min_eq_left (by norm_num)
  have hP0 : realPow (1 - (0:ℝ)/90) segC9.butt_r = 1 := by
    have hb : (1:ℝ) - 0/90 = 1 := by norm_num
    have hr2 : segC9.butt_r = 2 := rfl
    rw [hb, hr2, realPow_two (by norm_num)]
    norm_num
  have hP2 : realPow (1 - (2:ℝ)/90) segC9.butt_r = 1936/2025 := by
    have hb : (1:ℝ) - 2/90 = 44/45 := by norm_num
    have hr2 : segC9.butt_r = 2 := rfl
    rw [hb, hr2, realPow_two (by norm_num)]
    norm_num
  rw [vol_v1, hi1, hL10, hU12, hP0, hP2, segC9_Gv, segC9_Wv]
  norm_num [segC9]

theorem segC9_v23 (U : ℝ) (hU45 : ¬ 4.5 < U) (hU173 : ¬ 17.3 < U) :
    vol_v2 segC9 10 90 5 0 U = 0 ∧ vol_v3 segC9 90 5 0 U = 0 := by
  constructor
  · have hi3 : vol_i3 U = 0 := by rw [vol_i3, if_neg hU45]
    rw [vol_v2, hi3]
    ring
  · have hi4 : vol_i4 U = 0 := by rw [vol_i4, if_neg hU173]
    rw [vol_v3, hi4]
    ring

/-- Claim C9 (corrected), counterexample: with the type-valid coefficient
`c = -100` the butt integrand is negative, and the volume estimate strictly
decreases as the upper bound grows from 1 to 2 ft
(`estimate_volume(0,1) = -47.8 > -83.31 = estimate_volume(0,2)`). -/
theorem C9_counterexample :
    estimate_volume mC9 0 1 = PyRes.val (-47.8) ∧
    estimate_volume mC9 0 2 = PyRes.val (-83.31) ∧
    (-83.31 : ℝ) < -47.8 := by
  have hcx : ∀ U : ℝ, ¬ volComplex segC9 mC9.height 0 U := by
    intro U
    rw [mC9_height]
    exact not_volComplex_of (by norm_num) (by norm_num)
  refine ⟨?_, ?_, by norm_num⟩
  · have hnc : ¬ volCrash segC9 (Dval mC9 regRef) mC9.height 0 1 := by
      rw [mC9_Dval, mC9_height]
      exact mC9_nocrash 1
    rw [estimate_volume_val rfl rfl rfl hnc (hcx 1), mC9_Dval, mC9_height, mC9_F]
    have h23 := segC9_v23 1 (by norm_num) (by norm_num)
    rw [segC9_v1_01, h23.1, h23.2]
    have hval : (0.005454154 : ℝ) * (-83062300/9477 + 0 + 0) * 1 =
        0.005454154 * (-83062300) / 9477 := by ring
    rw [hval, pyround2_eq_of (-4780) (by norm_num) (by norm_num)]
    norm_num
  · have hnc : ¬ volCrash segC9 (Dval mC9 regRef) mC9.height 0 2 := by
      rw [mC9_Dval, mC9_height]
      exact mC9_nocrash 2
    rw [estimate_volume_val rfl rfl rfl hnc (hcx 2), mC9_Dval, mC9_height, mC9_F]
    have h23 := segC9_v23 2 (by norm_num) (by norm_num)
    rw [segC9_v1_02, h23.1, h23.2]
    have hval : (0.005454154 : ℝ) * (-144764600/9477 + 0 + 0) * 1 =
        0.005454154 * (-144764600) / 9477 := by ring
    rw [hval, pyround2_eq_of (-8331) (by norm_num) (by norm_num)]
    norm_num
